import Mathlib

/-!
# ArmNN backend dispatch: `ClWorkloadFactory` and `NeonNormalizationFloat32Workload`

A shallow embedding of

* `src/armnn/backends/ClWorkloadFactory.cpp`
* `src/armnn/backends/NeonWorkloads/NeonNormalizationFloat32Workload.cpp`

C++ exceptions (and `abort` from a failed assertion) are values of `Exception`
carried in `Except`; a `std::unique_ptr` result is an `Option` (`none` is
`nullptr`).  The two preprocessor switches the code depends on are explicit in
`BuildConfig`.
-/

namespace armnn

/-! ## Build configuration and faults -/

/-- The preprocessor switches the translation unit depends on:
`ARMCOMPUTECL_ENABLED` selects one of the two halves of `ClWorkloadFactory.cpp`,
`NDEBUG` compiles `BOOST_ASSERT` out. -/
structure BuildConfig where
  ARMCOMPUTECL_ENABLED : Bool
  NDEBUG : Bool
deriving DecidableEq

/-- Abnormal terminations.  `InvalidArgumentException` and `UnimplementedException`
are the two armnn exceptions thrown in the sources; `bad_numeric_cast` is what
`boost::numeric_cast` throws; `assertion_failed` is a `BOOST_ASSERT` that fails
while assertions are compiled in.  `ResourceFault` is the memory-manager protocol
fault named by the specification (section 7); no source line raises it. -/
inductive Exception where
  | InvalidArgumentException (what : String)
  | UnimplementedException (what : String)
  | bad_numeric_cast
  | assertion_failed (expr : String)
  | ResourceFault (what : String)
deriving DecidableEq

/-- `BOOST_ASSERT(cond)`: nothing when `NDEBUG` is defined, otherwise the program
stops when `cond` is false. -/
def BOOST_ASSERT (cfg : BuildConfig) (cond : Bool) (expr : String) : Except Exception Unit :=
  if cfg.NDEBUG then pure ()
  else if cond then pure ()
  else throw (Exception.assertion_failed expr)

/-- Largest value of a 32-bit `int`. -/
def INT_MAX : Nat := 2147483647

/-- `boost::numeric_cast<int>(v)` for an `unsigned int` value `v`: the same number
when it is representable, `bad_numeric_cast` otherwise. -/
def numeric_cast_int (v : Nat) : Except Exception Int :=
  if v ≤ INT_MAX then pure (Int.ofNat v) else throw Exception.bad_numeric_cast

/-! ## Tensor data model -/

/-- `armnn::DataType`: the two float types, the quantised 8-bit type (the Uint8
numeric type) and the 32-bit integer type. -/
inductive DataType where
  | Float16
  | Float32
  | QuantisedAsymm8
  | Signed32
deriving DecidableEq

/-- `armnn::TensorShape`: the per-axis extents in declared order; the number of
dimensions is the length. -/
abbrev TensorShape := List Nat

/-- `TensorShape::GetNumDimensions`. -/
def TensorShape.GetNumDimensions (s : TensorShape) : Nat := s.length

/-- `TensorShape::operator[]`: the extent of axis `i` (unused trailing slots of the
fixed-size dimension array hold 0). -/
def TensorShape.at (s : TensorShape) (i : Nat) : Nat := s.getD i 0

/-- `armnn::TensorInfo`: shape and element type (quantization parameters play no
part in the code embedded here). -/
structure TensorInfo where
  m_Shape : TensorShape
  m_DataType : DataType
deriving DecidableEq

/-- `ITensorHandle::Type`. -/
inductive HandleType where
  | Cpu
  | CL
  | Neon
deriving DecidableEq

/-- A tensor handle as far as the factory looks at it: its backend tag
(`GetType()`) and the shape of the tensor it holds. -/
structure ITensorHandle where
  type : HandleType
  shape : TensorShape
deriving DecidableEq

/-- `ITensorHandle::GetType`. -/
def ITensorHandle.GetType (h : ITensorHandle) : HandleType := h.type

/-- `arm_compute::Coordinates`: the signed coordinate slots `0 .. num_dimensions-1`. -/
abbrev Coordinates := List Int

/-- `Coordinates::set_num_dimensions` on a freshly constructed (all-zero) object. -/
def Coordinates.set_num_dimensions (n : Nat) : Coordinates := List.replicate n 0

/-- `Coordinates::set(dimension, value)`. -/
def Coordinates.set (c : Coordinates) (dimension : Nat) (value : Int) : Coordinates :=
  List.set c dimension value

/-- Modelled from the spec: `armcomputetensorutils::BuildArmComputeTensorShape`
(ArmComputeTensorUtils, absent from the sources at hand).  The backend indexes axes
in the reverse of the declared order (section 3), so the extents are reversed. -/
def BuildArmComputeTensorShape (s : TensorShape) : List Nat := s.reverse

/-- Modelled from the spec: the data of a `ClSubTensorHandle` (declared in
ClTensorHandle.hpp, absent from the sources at hand).  Section 3: the parent handle
(not owned), the shape of the view and one origin coordinate per axis.  The checks
its constructor makes are `ClSubTensorHandle.new` below. -/
structure ClSubTensorHandle where
  parentHandle : ITensorHandle
  shape : List Nat
  coords : Coordinates
deriving DecidableEq

/-- `ClTensorHandle` as created by `CreateTensorHandle`: the tensor info and the
memory group it was attached to. -/
structure ClTensorHandle where
  tensorInfo : TensorInfo
  interLayerGroup : Bool
deriving DecidableEq

/-! ## `ClWorkloadFactory::CreateSubTensorHandle` -/

/-- The `for` loop of `CreateSubTensorHandle` (lines 68-73), started at index `i`
with `fuel` iterations left.  `subTensorOrigin k` is the `unsigned int` read at
`subTensorOrigin[k]`.  The guard `i < numDims` keeps `numDims - i - 1` from
wrapping. -/
def fillCoords (numDims : Nat) (subTensorOrigin : Nat → Nat) :
    Nat → Nat → Coordinates → Except Exception Coordinates
  | 0, _, coords => pure coords
  | fuel + 1, i, coords =>
    if i < numDims then do
      -- Arm compute indexes tensor coords in reverse order.
      let revertedIndex := numDims - i - 1
      let v ← numeric_cast_int (subTensorOrigin revertedIndex)
      fillCoords numDims subTensorOrigin fuel (i + 1) (Coordinates.set coords i v)
    else pure coords

/-- `ClWorkloadFactory::CreateSubTensorHandle`, both halves of the file: lines
58-77 when the backend is enabled, lines 267-272 (`return nullptr`) otherwise.
`boost::polymorphic_downcast` is a `static_cast` once the assertion on the parent
type has passed or has been compiled out.  The constructor call of line 75 is
taken here as accepting its arguments, so the result shows the parent, shape and
coordinates handed to it; `CreateSubTensorHandleWith` below leaves the constructor
open. -/
def ClWorkloadFactory.CreateSubTensorHandle (cfg : BuildConfig) (parent : ITensorHandle)
    (subTensorShape : TensorShape) (subTensorOrigin : Nat → Nat) :
    Except Exception (Option ClSubTensorHandle) :=
  if cfg.ARMCOMPUTECL_ENABLED then do
    BOOST_ASSERT cfg (parent.GetType == HandleType.CL) "parent.GetType() == ITensorHandle::CL"
    let shape := BuildArmComputeTensorShape subTensorShape
    let coords := Coordinates.set_num_dimensions subTensorShape.GetNumDimensions
    let coords ← fillCoords subTensorShape.GetNumDimensions subTensorOrigin
      subTensorShape.GetNumDimensions 0 coords
    pure (some (ClSubTensorHandle.mk parent shape coords))
  else
    pure none

/-- The constructor of `ClSubTensorHandle` called at line 75.  It lives outside the
sources at hand and is taken as a parameter: given the parent, the backend shape
and the coordinates it returns the handle or throws. -/
abbrev SubTensorConstructor :=
  ITensorHandle → List Nat → Coordinates → Except Exception ClSubTensorHandle

/-- The constructor that stores its three arguments and accepts them all. -/
def ClSubTensorHandle.store : SubTensorConstructor :=
  fun parent shape coords => pure (ClSubTensorHandle.mk parent shape coords)

/-- Modelled from the spec: the bounds invariant of a sub-tensor (section 3).  With
`n` axes, slot `n-1-a` of the coordinates and of the backend shape belongs to axis
`a`; on every axis the origin plus the extent of the view must not exceed the
extent of the parent. -/
def withinParent (parent : ITensorHandle) (shape : List Nat) (coords : Coordinates) : Bool :=
  (List.range shape.length).all (fun a =>
    decide (coords.getD (shape.length - 1 - a) 0 + Int.ofNat (shape.getD (shape.length - 1 - a) 0)
      ≤ Int.ofNat (parent.shape.at a)))

/-- Modelled from the spec: the constructor of `ClSubTensorHandle` (ClTensorHandle.hpp,
absent from the sources at hand).  Sections 3, 4.1 and 8: a sub-tensor handle has a
parent of this backend, and constructing one on a parent with another tag fails
with `InvalidArgument`; the sub-region lies inside the parent's bounds, and a
violation fails with `InvalidArgument`. -/
def ClSubTensorHandle.new : SubTensorConstructor :=
  fun parent shape coords =>
    if parent.GetType ≠ HandleType.CL then
      throw (Exception.InvalidArgumentException "sub-tensor parent belongs to another backend")
    else if withinParent parent shape coords then
      pure (ClSubTensorHandle.mk parent shape coords)
    else
      throw (Exception.InvalidArgumentException "sub-tensor exceeds the bounds of its parent")

/-- `ClWorkloadFactory::CreateSubTensorHandle` (lines 58-77, and lines 267-272 when
the backend is compiled out) with the constructor called at line 75 left open:
the assertion on the parent type, the backend shape, the coordinate loop, then the
constructor on the parent, that shape and those coordinates. -/
def ClWorkloadFactory.CreateSubTensorHandleWith (ctor : SubTensorConstructor)
    (cfg : BuildConfig) (parent : ITensorHandle)
    (subTensorShape : TensorShape) (subTensorOrigin : Nat → Nat) :
    Except Exception (Option ClSubTensorHandle) :=
  if cfg.ARMCOMPUTECL_ENABLED then do
    BOOST_ASSERT cfg (parent.GetType == HandleType.CL) "parent.GetType() == ITensorHandle::CL"
    let shape := BuildArmComputeTensorShape subTensorShape
    let coords := Coordinates.set_num_dimensions subTensorShape.GetNumDimensions
    let coords ← fillCoords subTensorShape.GetNumDimensions subTensorOrigin
      subTensorShape.GetNumDimensions 0 coords
    let handle ← ctor parent shape coords
    pure (some handle)
  else
    pure none

/-! ## Workloads -/

/-- The workload classes named in `ClWorkloadFactory.cpp`. -/
inductive WorkloadClass where
  | CopyMemGenericWorkload
  | ClActivationFloat32Workload
  | ClActivationUint8Workload
  | ClSoftmaxFloat32Workload
  | ClSoftmaxUint8Workload
  | ClSplitterFloat32Workload
  | ClSplitterUint8Workload
  | ClMergerFloat32Workload
  | ClMergerUint8Workload
  | ClFullyConnectedFloat32Workload
  | NullWorkload
  | ClPermuteFloatWorkload
  | ClPermuteUint8Workload
  | ClPooling2dFloat32Workload
  | ClPooling2dUint8Workload
  | ClConvolution2dFloat32Workload
  | ClConvolution2dUint8Workload
  | ClDepthwiseConvolutionFloat32Workload
  | ClDepthwiseConvolutionUint8Workload
  | ClNormalizationFloat32Workload
  | ClAdditionFloat32Workload
  | ClAdditionUint8Workload
  | ClMultiplicationFloat32Workload
  | ClBatchNormalizationFloat32Workload
  | ClResizeBilinearFloat32Workload
  | ClL2NormalizationFloat32Workload
  | ClConstantFloat32Workload
  | ClConstantUint8Workload
  | ClReshapeFloat32Workload
  | ClReshapeUint8Workload
  | ClFloorFloat32Workload
  | ClLstmFloat32Workload
  | ClConvertFp16ToFp32Workload
  | ClConvertFp32ToFp16Workload
deriving DecidableEq

/-- A queue descriptor as far as the factory looks at it: the ordered input and
output handle pointers (`none` is a null pointer).  The operator-specific
parameters are never read by the factory. -/
structure QueueDescriptor where
  m_Inputs : List (Option ITensorHandle)
  m_Outputs : List (Option ITensorHandle)
deriving DecidableEq

/-- `armnn::WorkloadInfo`. -/
structure WorkloadInfo where
  m_InputTensorInfos : List TensorInfo
  m_OutputTensorInfos : List TensorInfo
deriving DecidableEq

/-- A constructed workload: its class and the descriptor it is bound to. -/
structure IWorkload where
  cls : WorkloadClass
  m_Data : QueueDescriptor
deriving DecidableEq

/-- The constructors of the concrete workload classes.  They live outside the
sources at hand and are taken as a parameter: each one either accepts the
descriptor and info or throws. -/
abbrev WorkloadConstructors := WorkloadClass → QueueDescriptor → WorkloadInfo → Except Exception Unit

/-- Modelled from the spec: the numeric type `MakeWorkload` reads from `info`
(section 4.1), taken to be that of the first input tensor, or of the first output
tensor when there is no input. -/
def WorkloadInfo.numericType (info : WorkloadInfo) : Option DataType :=
  match info.m_InputTensorInfos with
  | t :: _ => some t.m_DataType
  | [] =>
    match info.m_OutputTensorInfos with
    | t :: _ => some t.m_DataType
    | [] => none

/-- Modelled from the spec: the class `MakeWorkload<FloatWorkload, Uint8Workload>`
instantiates for a numeric type (section 4.1): the float class for the two float
types (the float workloads are declared for `Float16` and `Float32`, see
ClPooling2dFloat32Workload.hpp), the Uint8 class for `QuantisedAsymm8`, no
implementation otherwise. -/
def selectWorkload (FloatWorkload Uint8Workload : WorkloadClass) : Option DataType → WorkloadClass
  | some DataType.Float16 => FloatWorkload
  | some DataType.Float32 => FloatWorkload
  | some DataType.QuantisedAsymm8 => Uint8Workload
  | _ => WorkloadClass.NullWorkload

/-- Modelled from the spec: `MakeWorkload<FloatWorkload, Uint8Workload>`
(MakeWorkloadHelper.hpp, absent from the sources at hand).  Section 4.1: it
dispatches to the concrete workload constructor for the operator and the numeric
type read from `info`; for a pair with no implementation (`NullWorkload`) it
returns the no-op placeholder workload rather than a null result. -/
def MakeWorkload (construct : WorkloadConstructors) (FloatWorkload Uint8Workload : WorkloadClass)
    (descriptor : QueueDescriptor) (info : WorkloadInfo) : Except Exception (Option IWorkload) :=
  let cls := selectWorkload FloatWorkload Uint8Workload info.numericType
  if cls = WorkloadClass.NullWorkload then
    pure (some (IWorkload.mk WorkloadClass.NullWorkload descriptor))
  else do
    construct cls descriptor info
    pure (some (IWorkload.mk cls descriptor))

/-- `std::make_unique<W>(descriptor, info)`: runs the constructor of `W`; the
pointer it returns is never null. -/
def make_unique (construct : WorkloadConstructors) (W : WorkloadClass)
    (descriptor : QueueDescriptor) (info : WorkloadInfo) : Except Exception (Option IWorkload) := do
  construct W descriptor info
  pure (some (IWorkload.mk W descriptor))

/-! ## `ClWorkloadFactory`: handle and workload creation -/

/-- `ClWorkloadFactory::CreateTensorHandle`: lines 50-56 (a new `ClTensorHandle`
attached to the inter-layer memory group) when the backend is enabled, lines
262-265 (`return nullptr`) otherwise. -/
def ClWorkloadFactory.CreateTensorHandle (cfg : BuildConfig) (tensorInfo : TensorInfo) :
    Except Exception (Option ClTensorHandle) :=
  if cfg.ARMCOMPUTECL_ENABLED then
    pure (some (ClTensorHandle.mk tensorInfo true))
  else
    pure none

/-- `ClWorkloadFactory::CreateInput`: lines 79-83 when the backend is enabled,
`return nullptr` (lines 274-278) otherwise. -/
def ClWorkloadFactory.CreateInput (cfg : BuildConfig) (construct : WorkloadConstructors)
    (descriptor : QueueDescriptor) (info : WorkloadInfo) : Except Exception (Option IWorkload) :=
  if cfg.ARMCOMPUTECL_ENABLED then
    MakeWorkload construct WorkloadClass.CopyMemGenericWorkload WorkloadClass.CopyMemGenericWorkload
      descriptor info
  else
    pure none

/-- `ClWorkloadFactory::CreateOutput`: lines 85-89 when the backend is enabled,
`return nullptr` (lines 280-284) otherwise. -/
def ClWorkloadFactory.CreateOutput (cfg : BuildConfig) (construct : WorkloadConstructors)
    (descriptor : QueueDescriptor) (info : WorkloadInfo) : Except Exception (Option IWorkload) :=
  if cfg.ARMCOMPUTECL_ENABLED then
    MakeWorkload construct WorkloadClass.CopyMemGenericWorkload WorkloadClass.CopyMemGenericWorkload
      descriptor info
  else
    pure none

/-- `ClWorkloadFactory::CreateActivation`: lines 91-95 when the backend is enabled,
`return nullptr` (lines 286-290) otherwise. -/
def ClWorkloadFactory.CreateActivation (cfg : BuildConfig) (construct : WorkloadConstructors)
    (descriptor : QueueDescriptor) (info : WorkloadInfo) : Except Exception (Option IWorkload) :=
  if cfg.ARMCOMPUTECL_ENABLED then
    MakeWorkload construct WorkloadClass.ClActivationFloat32Workload WorkloadClass.ClActivationUint8Workload
      descriptor info
  else
    pure none

/-- `ClWorkloadFactory::CreateSoftmax`: lines 97-102 when the backend is enabled,
`return nullptr` (lines 292-296) otherwise. -/
def ClWorkloadFactory.CreateSoftmax (cfg : BuildConfig) (construct : WorkloadConstructors)
    (descriptor : QueueDescriptor) (info : WorkloadInfo) : Except Exception (Option IWorkload) :=
  if cfg.ARMCOMPUTECL_ENABLED then
    MakeWorkload construct WorkloadClass.ClSoftmaxFloat32Workload WorkloadClass.ClSoftmaxUint8Workload
      descriptor info
  else
    pure none

/-- `ClWorkloadFactory::CreateSplitter`: lines 104-108 when the backend is enabled,
`return nullptr` (lines 298-302) otherwise. -/
def ClWorkloadFactory.CreateSplitter (cfg : BuildConfig) (construct : WorkloadConstructors)
    (descriptor : QueueDescriptor) (info : WorkloadInfo) : Except Exception (Option IWorkload) :=
  if cfg.ARMCOMPUTECL_ENABLED then
    MakeWorkload construct WorkloadClass.ClSplitterFloat32Workload WorkloadClass.ClSplitterUint8Workload
      descriptor info
  else
    pure none

/-- `ClWorkloadFactory::CreateMerger`: lines 110-114 when the backend is enabled,
`return nullptr` (lines 304-308) otherwise. -/
def ClWorkloadFactory.CreateMerger (cfg : BuildConfig) (construct : WorkloadConstructors)
    (descriptor : QueueDescriptor) (info : WorkloadInfo) : Except Exception (Option IWorkload) :=
  if cfg.ARMCOMPUTECL_ENABLED then
    MakeWorkload construct WorkloadClass.ClMergerFloat32Workload WorkloadClass.ClMergerUint8Workload
      descriptor info
  else
    pure none

/-- `ClWorkloadFactory::CreateFullyConnected`: lines 116-121 when the backend is enabled,
`return nullptr` (lines 310-314) otherwise. -/
def ClWorkloadFactory.CreateFullyConnected (cfg : BuildConfig) (construct : WorkloadConstructors)
    (descriptor : QueueDescriptor) (info : WorkloadInfo) : Except Exception (Option IWorkload) :=
  if cfg.ARMCOMPUTECL_ENABLED then
    MakeWorkload construct WorkloadClass.ClFullyConnectedFloat32Workload WorkloadClass.NullWorkload
      descriptor info
  else
    pure none

/-- `ClWorkloadFactory::CreatePermute`: lines 123-127 when the backend is enabled,
`return nullptr` (lines 316-320) otherwise. -/
def ClWorkloadFactory.CreatePermute (cfg : BuildConfig) (construct : WorkloadConstructors)
    (descriptor : QueueDescriptor) (info : WorkloadInfo) : Except Exception (Option IWorkload) :=
  if cfg.ARMCOMPUTECL_ENABLED then
    MakeWorkload construct WorkloadClass.ClPermuteFloatWorkload WorkloadClass.ClPermuteUint8Workload
      descriptor info
  else
    pure none

/-- `ClWorkloadFactory::CreatePooling2d`: lines 129-133 when the backend is enabled,
`return nullptr` (lines 322-326) otherwise. -/
def ClWorkloadFactory.CreatePooling2d (cfg : BuildConfig) (construct : WorkloadConstructors)
    (descriptor : QueueDescriptor) (info : WorkloadInfo) : Except Exception (Option IWorkload) :=
  if cfg.ARMCOMPUTECL_ENABLED then
    MakeWorkload construct WorkloadClass.ClPooling2dFloat32Workload WorkloadClass.ClPooling2dUint8Workload
      descriptor info
  else
    pure none

/-- `ClWorkloadFactory::CreateConvolution2d`: lines 135-140 when the backend is enabled,
`return nullptr` (lines 328-332) otherwise. -/
def ClWorkloadFactory.CreateConvolution2d (cfg : BuildConfig) (construct : WorkloadConstructors)
    (descriptor : QueueDescriptor) (info : WorkloadInfo) : Except Exception (Option IWorkload) :=
  if cfg.ARMCOMPUTECL_ENABLED then
    MakeWorkload construct WorkloadClass.ClConvolution2dFloat32Workload WorkloadClass.ClConvolution2dUint8Workload
      descriptor info
  else
    pure none

/-- `ClWorkloadFactory::CreateDepthwiseConvolution2d`: lines 142-146 when the backend is enabled,
`return nullptr` (lines 334-338) otherwise. -/
def ClWorkloadFactory.CreateDepthwiseConvolution2d (cfg : BuildConfig) (construct : WorkloadConstructors)
    (descriptor : QueueDescriptor) (info : WorkloadInfo) : Except Exception (Option IWorkload) :=
  if cfg.ARMCOMPUTECL_ENABLED then
    MakeWorkload construct WorkloadClass.ClDepthwiseConvolutionFloat32Workload WorkloadClass.ClDepthwiseConvolutionUint8Workload
      descriptor info
  else
    pure none

/-- `ClWorkloadFactory::CreateNormalization`: lines 148-152 when the backend is enabled,
`return nullptr` (lines 340-344) otherwise. -/
def ClWorkloadFactory.CreateNormalization (cfg : BuildConfig) (construct : WorkloadConstructors)
    (descriptor : QueueDescriptor) (info : WorkloadInfo) : Except Exception (Option IWorkload) :=
  if cfg.ARMCOMPUTECL_ENABLED then
    MakeWorkload construct WorkloadClass.ClNormalizationFloat32Workload WorkloadClass.NullWorkload
      descriptor info
  else
    pure none

/-- `ClWorkloadFactory::CreateAddition`: lines 154-158 when the backend is enabled,
`return nullptr` (lines 346-350) otherwise. -/
def ClWorkloadFactory.CreateAddition (cfg : BuildConfig) (construct : WorkloadConstructors)
    (descriptor : QueueDescriptor) (info : WorkloadInfo) : Except Exception (Option IWorkload) :=
  if cfg.ARMCOMPUTECL_ENABLED then
    MakeWorkload construct WorkloadClass.ClAdditionFloat32Workload WorkloadClass.ClAdditionUint8Workload
      descriptor info
  else
    pure none

/-- `ClWorkloadFactory::CreateMultiplication`: lines 160-164 when the backend is enabled,
`return nullptr` (lines 352-356) otherwise. -/
def ClWorkloadFactory.CreateMultiplication (cfg : BuildConfig) (construct : WorkloadConstructors)
    (descriptor : QueueDescriptor) (info : WorkloadInfo) : Except Exception (Option IWorkload) :=
  if cfg.ARMCOMPUTECL_ENABLED then
    MakeWorkload construct WorkloadClass.ClMultiplicationFloat32Workload WorkloadClass.NullWorkload
      descriptor info
  else
    pure none

/-- `ClWorkloadFactory::CreateBatchNormalization`: lines 166-170 when the backend is enabled,
`return nullptr` (lines 358-362) otherwise. -/
def ClWorkloadFactory.CreateBatchNormalization (cfg : BuildConfig) (construct : WorkloadConstructors)
    (descriptor : QueueDescriptor) (info : WorkloadInfo) : Except Exception (Option IWorkload) :=
  if cfg.ARMCOMPUTECL_ENABLED then
    MakeWorkload construct WorkloadClass.ClBatchNormalizationFloat32Workload WorkloadClass.NullWorkload
      descriptor info
  else
    pure none

/-- `ClWorkloadFactory::CreateMemCopy`: lines 172-181 when the backend is enabled,
`return nullptr` (lines 364-368) otherwise. -/
def ClWorkloadFactory.CreateMemCopy (cfg : BuildConfig) (construct : WorkloadConstructors)
    (descriptor : QueueDescriptor) (info : WorkloadInfo) : Except Exception (Option IWorkload) :=
  if cfg.ARMCOMPUTECL_ENABLED then
    if descriptor.m_Inputs.isEmpty || (descriptor.m_Inputs.getD 0 none).isNone then
      throw (Exception.InvalidArgumentException
        "ClWorkloadFactory: Invalid null input for MemCopy workload")
    else
      MakeWorkload construct WorkloadClass.CopyMemGenericWorkload WorkloadClass.CopyMemGenericWorkload
        descriptor info
  else
    pure none

/-- `ClWorkloadFactory::CreateResizeBilinear`: lines 183-188 when the backend is enabled,
`return nullptr` (lines 370-374) otherwise. -/
def ClWorkloadFactory.CreateResizeBilinear (cfg : BuildConfig) (construct : WorkloadConstructors)
    (descriptor : QueueDescriptor) (info : WorkloadInfo) : Except Exception (Option IWorkload) :=
  if cfg.ARMCOMPUTECL_ENABLED then
    MakeWorkload construct WorkloadClass.ClResizeBilinearFloat32Workload WorkloadClass.NullWorkload
      descriptor info
  else
    pure none

/-- `ClWorkloadFactory::CreateFakeQuantization`: `return nullptr` in both halves of
the file (lines 190-195 and 376-380). -/
def ClWorkloadFactory.CreateFakeQuantization (cfg : BuildConfig) (_construct : WorkloadConstructors)
    (_descriptor : QueueDescriptor) (_info : WorkloadInfo) : Except Exception (Option IWorkload) :=
  if cfg.ARMCOMPUTECL_ENABLED then
    pure none
  else
    pure none

/-- `ClWorkloadFactory::CreateL2Normalization`: lines 197-201 when the backend is enabled,
`return nullptr` (lines 382-386) otherwise. -/
def ClWorkloadFactory.CreateL2Normalization (cfg : BuildConfig) (construct : WorkloadConstructors)
    (descriptor : QueueDescriptor) (info : WorkloadInfo) : Except Exception (Option IWorkload) :=
  if cfg.ARMCOMPUTECL_ENABLED then
    MakeWorkload construct WorkloadClass.ClL2NormalizationFloat32Workload WorkloadClass.NullWorkload
      descriptor info
  else
    pure none

/-- `ClWorkloadFactory::CreateConstant`: lines 203-207 when the backend is enabled,
`return nullptr` (lines 388-392) otherwise. -/
def ClWorkloadFactory.CreateConstant (cfg : BuildConfig) (construct : WorkloadConstructors)
    (descriptor : QueueDescriptor) (info : WorkloadInfo) : Except Exception (Option IWorkload) :=
  if cfg.ARMCOMPUTECL_ENABLED then
    MakeWorkload construct WorkloadClass.ClConstantFloat32Workload WorkloadClass.ClConstantUint8Workload
      descriptor info
  else
    pure none

/-- `ClWorkloadFactory::CreateReshape`: lines 209-213 when the backend is enabled,
`return nullptr` (lines 394-398) otherwise. -/
def ClWorkloadFactory.CreateReshape (cfg : BuildConfig) (construct : WorkloadConstructors)
    (descriptor : QueueDescriptor) (info : WorkloadInfo) : Except Exception (Option IWorkload) :=
  if cfg.ARMCOMPUTECL_ENABLED then
    MakeWorkload construct WorkloadClass.ClReshapeFloat32Workload WorkloadClass.ClReshapeUint8Workload
      descriptor info
  else
    pure none

/-- `ClWorkloadFactory::CreateFloor`: lines 215-219 when the backend is enabled,
`return nullptr` (lines 400-404) otherwise. -/
def ClWorkloadFactory.CreateFloor (cfg : BuildConfig) (construct : WorkloadConstructors)
    (descriptor : QueueDescriptor) (info : WorkloadInfo) : Except Exception (Option IWorkload) :=
  if cfg.ARMCOMPUTECL_ENABLED then
    MakeWorkload construct WorkloadClass.ClFloorFloat32Workload WorkloadClass.NullWorkload
      descriptor info
  else
    pure none

/-- `ClWorkloadFactory::CreateLstm`: lines 221-225 when the backend is enabled,
`return nullptr` (lines 406-410) otherwise. -/
def ClWorkloadFactory.CreateLstm (cfg : BuildConfig) (construct : WorkloadConstructors)
    (descriptor : QueueDescriptor) (info : WorkloadInfo) : Except Exception (Option IWorkload) :=
  if cfg.ARMCOMPUTECL_ENABLED then
    MakeWorkload construct WorkloadClass.ClLstmFloat32Workload WorkloadClass.NullWorkload
      descriptor info
  else
    pure none

/-- `ClWorkloadFactory::CreateConvertFp16ToFp32`: lines 227-232 when the backend is enabled,
`return nullptr` (lines 412-417) otherwise. -/
def ClWorkloadFactory.CreateConvertFp16ToFp32 (cfg : BuildConfig) (construct : WorkloadConstructors)
    (descriptor : QueueDescriptor) (info : WorkloadInfo) : Except Exception (Option IWorkload) :=
  if cfg.ARMCOMPUTECL_ENABLED then
    make_unique construct WorkloadClass.ClConvertFp16ToFp32Workload descriptor info
  else
    pure none

/-- `ClWorkloadFactory::CreateConvertFp32ToFp16`: lines 234-239 when the backend is enabled,
`return nullptr` (lines 419-424) otherwise. -/
def ClWorkloadFactory.CreateConvertFp32ToFp16 (cfg : BuildConfig) (construct : WorkloadConstructors)
    (descriptor : QueueDescriptor) (info : WorkloadInfo) : Except Exception (Option IWorkload) :=
  if cfg.ARMCOMPUTECL_ENABLED then
    make_unique construct WorkloadClass.ClConvertFp32ToFp16Workload descriptor info
  else
    pure none

/-- The operator kinds for which `ClWorkloadFactory` has a workload-creation
operation. -/
inductive LayerType where
  | Input
  | Output
  | Activation
  | Softmax
  | Splitter
  | Merger
  | FullyConnected
  | Permute
  | Pooling2d
  | Convolution2d
  | DepthwiseConvolution2d
  | Normalization
  | Addition
  | Multiplication
  | BatchNormalization
  | MemCopy
  | ResizeBilinear
  | FakeQuantization
  | L2Normalization
  | Constant
  | Reshape
  | Floor
  | Lstm
  | ConvertFp16ToFp32
  | ConvertFp32ToFp16
deriving DecidableEq

/-- The workload-creation operation of the factory for an operator kind
(`CreateWorkload(operatorKind, descriptor, info)` of section 4.1): one of the
`Create...` member functions above. -/
def ClWorkloadFactory.CreateWorkload (cfg : BuildConfig) (construct : WorkloadConstructors) :
    LayerType → QueueDescriptor → WorkloadInfo → Except Exception (Option IWorkload)
  | LayerType.Input => ClWorkloadFactory.CreateInput cfg construct
  | LayerType.Output => ClWorkloadFactory.CreateOutput cfg construct
  | LayerType.Activation => ClWorkloadFactory.CreateActivation cfg construct
  | LayerType.Softmax => ClWorkloadFactory.CreateSoftmax cfg construct
  | LayerType.Splitter => ClWorkloadFactory.CreateSplitter cfg construct
  | LayerType.Merger => ClWorkloadFactory.CreateMerger cfg construct
  | LayerType.FullyConnected => ClWorkloadFactory.CreateFullyConnected cfg construct
  | LayerType.Permute => ClWorkloadFactory.CreatePermute cfg construct
  | LayerType.Pooling2d => ClWorkloadFactory.CreatePooling2d cfg construct
  | LayerType.Convolution2d => ClWorkloadFactory.CreateConvolution2d cfg construct
  | LayerType.DepthwiseConvolution2d => ClWorkloadFactory.CreateDepthwiseConvolution2d cfg construct
  | LayerType.Normalization => ClWorkloadFactory.CreateNormalization cfg construct
  | LayerType.Addition => ClWorkloadFactory.CreateAddition cfg construct
  | LayerType.Multiplication => ClWorkloadFactory.CreateMultiplication cfg construct
  | LayerType.BatchNormalization => ClWorkloadFactory.CreateBatchNormalization cfg construct
  | LayerType.MemCopy => ClWorkloadFactory.CreateMemCopy cfg construct
  | LayerType.ResizeBilinear => ClWorkloadFactory.CreateResizeBilinear cfg construct
  | LayerType.FakeQuantization => ClWorkloadFactory.CreateFakeQuantization cfg construct
  | LayerType.L2Normalization => ClWorkloadFactory.CreateL2Normalization cfg construct
  | LayerType.Constant => ClWorkloadFactory.CreateConstant cfg construct
  | LayerType.Reshape => ClWorkloadFactory.CreateReshape cfg construct
  | LayerType.Floor => ClWorkloadFactory.CreateFloor cfg construct
  | LayerType.Lstm => ClWorkloadFactory.CreateLstm cfg construct
  | LayerType.ConvertFp16ToFp32 => ClWorkloadFactory.CreateConvertFp16ToFp32 cfg construct
  | LayerType.ConvertFp32ToFp16 => ClWorkloadFactory.CreateConvertFp32ToFp16 cfg construct

/-! ## `ClWorkloadFactory`: memory lifecycle -/

/-- The states of a memory group (section 4.2). -/
inductive MemoryGroupState where
  | Unfinalized
  | Finalized
  | Acquired
deriving DecidableEq

/-- Modelled from the spec: the memory manager behind `m_MemoryManager`
(ClMemoryManager, absent from the sources at hand), reduced to the lifecycle state
of its memory groups. -/
structure MemoryManager where
  state : MemoryGroupState
deriving DecidableEq

/-- Modelled from the spec: `MemoryManager::Finalize` (absent from the sources at
hand).  Section 4.2: fixes the footprint and moves `Unfinalized` to `Finalized`;
from any other state it is a protocol violation. -/
def MemoryManager.Finalize (m : MemoryManager) : Except Exception MemoryManager :=
  match m.state with
  | MemoryGroupState.Unfinalized => pure (MemoryManager.mk MemoryGroupState.Finalized)
  | _ => throw (Exception.ResourceFault "Finalize on a finalized memory group")

/-- Modelled from the spec: `MemoryManager::Acquire` (absent from the sources at
hand).  Sections 4.2 and 7: moves `Finalized` to `Acquired`; `Acquire` before
`Finalize` and a second `Acquire` without a `Release` fail with `ResourceFault`. -/
def MemoryManager.Acquire (m : MemoryManager) : Except Exception MemoryManager :=
  match m.state with
  | MemoryGroupState.Finalized => pure (MemoryManager.mk MemoryGroupState.Acquired)
  | MemoryGroupState.Unfinalized => throw (Exception.ResourceFault "Acquire before Finalize")
  | MemoryGroupState.Acquired => throw (Exception.ResourceFault "Acquire twice without Release")

/-- Modelled from the spec: `MemoryManager::Release` (absent from the sources at
hand).  Section 4.2: moves `Acquired` back to `Finalized`; from any other state it
is a protocol violation. -/
def MemoryManager.Release (m : MemoryManager) : Except Exception MemoryManager :=
  match m.state with
  | MemoryGroupState.Acquired => pure (MemoryManager.mk MemoryGroupState.Finalized)
  | _ => throw (Exception.ResourceFault "Release without Acquire")

/-- The state of a `ClWorkloadFactory` object: its `m_MemoryManager` member. -/
structure ClWorkloadFactory where
  m_MemoryManager : MemoryManager
deriving DecidableEq

/-- `ClWorkloadFactory::ClWorkloadFactory()` (lines 45-48 and 258-260): a factory
whose memory manager has just been created. -/
def ClWorkloadFactory.new : ClWorkloadFactory :=
  ClWorkloadFactory.mk (MemoryManager.mk MemoryGroupState.Unfinalized)

/-- `ClWorkloadFactory::Finalize`: forwards to the memory manager (lines 241-244);
an empty body when the backend is compiled out (lines 426-428). -/
def ClWorkloadFactory.Finalize (cfg : BuildConfig) (self : ClWorkloadFactory) :
    Except Exception ClWorkloadFactory :=
  if cfg.ARMCOMPUTECL_ENABLED then do
    let m ← self.m_MemoryManager.Finalize
    pure (ClWorkloadFactory.mk m)
  else
    pure self

/-- `ClWorkloadFactory::Release`: forwards to the memory manager (lines 246-249);
an empty body when the backend is compiled out (lines 430-432). -/
def ClWorkloadFactory.Release (cfg : BuildConfig) (self : ClWorkloadFactory) :
    Except Exception ClWorkloadFactory :=
  if cfg.ARMCOMPUTECL_ENABLED then do
    let m ← self.m_MemoryManager.Release
    pure (ClWorkloadFactory.mk m)
  else
    pure self

/-- `ClWorkloadFactory::Acquire`: forwards to the memory manager (lines 251-254);
an empty body when the backend is compiled out (lines 434-436). -/
def ClWorkloadFactory.Acquire (cfg : BuildConfig) (self : ClWorkloadFactory) :
    Except Exception ClWorkloadFactory :=
  if cfg.ARMCOMPUTECL_ENABLED then do
    let m ← self.m_MemoryManager.Acquire
    pure (ClWorkloadFactory.mk m)
  else
    pure self

/-- The three lifecycle calls a client can make on a factory. -/
inductive LifecycleCall where
  | Finalize
  | Release
  | Acquire
deriving DecidableEq

/-- One lifecycle call on a factory. -/
def ClWorkloadFactory.call (cfg : BuildConfig) (self : ClWorkloadFactory) :
    LifecycleCall → Except Exception ClWorkloadFactory
  | LifecycleCall.Finalize => self.Finalize cfg
  | LifecycleCall.Release => self.Release cfg
  | LifecycleCall.Acquire => self.Acquire cfg

/-- The factory after a history of lifecycle calls made one after the other; a call
that throws leaves the factory as it was. -/
def ClWorkloadFactory.after (cfg : BuildConfig) :
    ClWorkloadFactory → List LifecycleCall → ClWorkloadFactory
  | self, [] => self
  | self, c :: cs =>
    match self.call cfg c with
    | Except.ok next => ClWorkloadFactory.after cfg next cs
    | Except.error _ => ClWorkloadFactory.after cfg self cs

/-! ## `NeonNormalizationFloat32Workload` -/

/-- `armnn::NormalizationAlgorithmChannel`. -/
inductive NormalizationAlgorithmChannel where
  | Across
  | Within
deriving DecidableEq

/-- `armnn::NormalizationAlgorithmMethod`. -/
inductive NormalizationAlgorithmMethod where
  | LocalBrightness
  | LocalContrast
deriving DecidableEq

/-- `armnn::NormalizationDescriptor`: the operator parameters (the three `float`
members are carried as rationals; no code embedded here computes with them). -/
structure NormalizationDescriptor where
  m_NormChannelType : NormalizationAlgorithmChannel
  m_NormMethodType : NormalizationAlgorithmMethod
  m_NormSize : Nat
  m_Alpha : Rat
  m_Beta : Rat
  m_K : Rat
deriving DecidableEq

/-- `armnn::NormalizationQueueDescriptor`: handle lists plus `m_Parameters`. -/
structure NormalizationQueueDescriptor extends QueueDescriptor where
  m_Parameters : NormalizationDescriptor
deriving DecidableEq

/-- The code the constructor calls that lives outside the sources at hand, taken as
parameters: the base-class constructor `FloatWorkload<NormalizationQueueDescriptor>`,
`QueueDescriptor::ValidateInputsOutputs(name, numExpectedIn, numExpectedOut)` and
`IsNeonNormalizationDescParamsSupported` (its `bool` result together with the
reason string it writes). -/
structure NeonExternals where
  FloatWorkload : NormalizationQueueDescriptor → WorkloadInfo → Except Exception Unit
  ValidateInputsOutputs : QueueDescriptor → String → Nat → Nat → Except Exception Unit
  IsNeonNormalizationDescParamsSupported : NormalizationDescriptor → Bool × String

/-- A constructed `NeonNormalizationFloat32Workload`: the descriptor it holds in
`m_Data` (the configured kernel object is the backend library's). -/
structure NeonNormalizationFloat32Workload where
  m_Data : NormalizationQueueDescriptor
deriving DecidableEq

/-- The test of lines 41-44: the input and output shapes differ on axis 1, 0, 3 or
2 (in that order). -/
def dimensionalityDiffers (input output : TensorShape) : Bool :=
  input.at 1 != output.at 1
    || input.at 0 != output.at 0
    || input.at 3 != output.at 3
    || input.at 2 != output.at 2

/-- The message of the exception thrown at line 46. -/
def dimensionalityMessage : String :=
  "Normalization requires input and output tensors to have equal dimensionality."

/-- The constructor `NeonNormalizationFloat32Workload::NeonNormalizationFloat32Workload`
(lines 27-62).  After the base-class constructor: the arity validation (line 33),
then the parameter-support test (lines 35-38), then the dimensionality test (lines
41-47).  Lines 49-61 downcast the two handles and configure the backend kernel;
that part belongs to the backend library and throws neither of the two armnn
exceptions, so the model ends with the constructed workload.  Reading element 0 of
an empty `m_InputTensorInfos` or `m_OutputTensorInfos` is undefined behaviour and
stops the model with `assertion_failed`. -/
def NeonNormalizationFloat32Workload.new (ext : NeonExternals)
    (descriptor : NormalizationQueueDescriptor) (info : WorkloadInfo) :
    Except Exception NeonNormalizationFloat32Workload := do
  ext.FloatWorkload descriptor info
  ext.ValidateInputsOutputs descriptor.toQueueDescriptor "NeonNormalizationFloat32Workload" 1 1
  let (supported, reasonIfUnsupported) :=
    ext.IsNeonNormalizationDescParamsSupported descriptor.m_Parameters
  if !supported then
    throw (Exception.UnimplementedException reasonIfUnsupported)
  -- Input and output tensors have to have the same dimensionality.
  match info.m_InputTensorInfos, info.m_OutputTensorInfos with
  | input :: _, output :: _ =>
    if dimensionalityDiffers input.m_Shape output.m_Shape then
      throw (Exception.InvalidArgumentException dimensionalityMessage)
    else
      pure (NeonNormalizationFloat32Workload.mk descriptor)
  | _, _ => throw (Exception.assertion_failed "vector subscript out of range")

/-! ## Predicates and sample values used to state the properties -/

/-- The sub-region leaves the parent on some axis: `origin[a] + subShape[a]` is
larger than the parent's extent on an axis `a` of the sub-tensor shape. -/
def exceedsParent (parent : ITensorHandle) (subTensorShape : TensorShape)
    (subTensorOrigin : Nat → Nat) : Prop :=
  ∃ a, a < subTensorShape.GetNumDimensions ∧
    parent.shape.at a < subTensorOrigin a + subTensorShape.at a

/-- The condition tested at line 175: the input-handle list is empty or its first
handle is null. -/
def nullOrEmptyInput (descriptor : QueueDescriptor) : Prop :=
  descriptor.m_Inputs = [] ∨ descriptor.m_Inputs[0]? = some none

/-- Workload constructors that accept every descriptor and info. -/
def acceptAll : WorkloadConstructors := fun _ _ _ => pure ()

/-- Modelled from the spec: `QueueDescriptor::ValidateInputsOutputs` (WorkloadData,
absent from the sources at hand).  Section 4.1 (a): a descriptor must have the
input and output arity of its operator kind, and a violation fails with
`InvalidArgument`.  Used as one admissible choice of the external validation. -/
def ValidateInputsOutputs (descriptor : QueueDescriptor) (descName : String)
    (numExpectedIn numExpectedOut : Nat) : Except Exception Unit :=
  if descriptor.m_Inputs.length ≠ numExpectedIn then
    throw (Exception.InvalidArgumentException (descName ++ ": wrong number of inputs"))
  else if descriptor.m_Outputs.length ≠ numExpectedOut then
    throw (Exception.InvalidArgumentException (descName ++ ": wrong number of outputs"))
  else pure ()

/-- Modelled from the spec: workload constructors that validate the arity of the
descriptor as section 4.1 (a) describes construction-time validation, here one
input and one output for every workload class; a violation fails with
`InvalidArgument`. -/
def arityCheckingConstructors : WorkloadConstructors :=
  fun _ descriptor _ => ValidateInputsOutputs descriptor "Workload" 1 1

/-- A MemCopy descriptor with one non-null CL input handle and no output handle. -/
def inputOnlyDescriptor : QueueDescriptor :=
  QueueDescriptor.mk [some (ITensorHandle.mk HandleType.CL [1])] []

/-- Modelled from the spec: a base-class constructor that validates the dimensional
compatibility of section 4.1 (c): normalization requires identical rank and
identical per-axis extents between its input and its output, and a violation fails
with `InvalidArgument`. -/
def validateShapesMatch (_descriptor : NormalizationQueueDescriptor) (info : WorkloadInfo) :
    Except Exception Unit :=
  match info.m_InputTensorInfos, info.m_OutputTensorInfos with
  | input :: _, output :: _ =>
    if input.m_Shape = output.m_Shape then pure ()
    else throw (Exception.InvalidArgumentException "input and output shapes do not match")
  | _, _ => pure ()

/-- One admissible choice of the external code of the normalization workload: a
base-class constructor that accepts, the arity validation above, and a support
test that admits only the `LocalBrightness` method. -/
def exampleExternals : NeonExternals :=
  NeonExternals.mk (fun _ _ => pure ()) ValidateInputsOutputs
    (fun p => (decide (p.m_NormMethodType = NormalizationAlgorithmMethod.LocalBrightness),
      "Unsupported normalisation method type"))

/-- A second admissible choice of the external code: as `exampleExternals`, but with
the base-class constructor validating that the shapes match. -/
def validatingExternals : NeonExternals :=
  NeonExternals.mk validateShapesMatch ValidateInputsOutputs
    (fun p => (decide (p.m_NormMethodType = NormalizationAlgorithmMethod.LocalBrightness),
      "Unsupported normalisation method type"))

/-- A normalization descriptor with one Neon input handle and one Neon output
handle, of shapes (1,4,4,3) and (1,4,4,4), for the given method. -/
def exampleDescriptor (method : NormalizationAlgorithmMethod) : NormalizationQueueDescriptor :=
  NormalizationQueueDescriptor.mk
    (QueueDescriptor.mk [some (ITensorHandle.mk HandleType.Neon [1, 4, 4, 3])]
      [some (ITensorHandle.mk HandleType.Neon [1, 4, 4, 4])])
    (NormalizationDescriptor.mk NormalizationAlgorithmChannel.Across method 5 1 1 1)

/-- The workload info of the scenario of section 8: input shape (1,4,4,3), output
shape (1,4,4,4). -/
def exampleInfo : WorkloadInfo :=
  WorkloadInfo.mk [TensorInfo.mk [1, 4, 4, 3] DataType.Float32]
    [TensorInfo.mk [1, 4, 4, 4] DataType.Float32]

/-- The operator kinds whose `Create...` function returns the result of
`MakeWorkload` (all but `CreateFakeQuantization`, which returns `nullptr`, and the
two conversions, which call `std::make_unique`). -/
def dispatchedThroughMakeWorkload : LayerType → Bool
  | LayerType.FakeQuantization => false
  | LayerType.ConvertFp16ToFp32 => false
  | LayerType.ConvertFp32ToFp16 => false
  | _ => true

/-- The operator kinds listed as having no Uint8 implementation. -/
def nullUint8Kinds : List LayerType :=
  [LayerType.FullyConnected, LayerType.Normalization, LayerType.Multiplication,
   LayerType.BatchNormalization, LayerType.ResizeBilinear, LayerType.L2Normalization,
   LayerType.Floor, LayerType.Lstm]

/-- A descriptor with one non-null CL input handle and one non-null CL output
handle. -/
def probeDescriptor : QueueDescriptor :=
  QueueDescriptor.mk [some (ITensorHandle.mk HandleType.CL [1])]
    [some (ITensorHandle.mk HandleType.CL [1])]

/-- A workload info with one input and one output tensor of the given numeric
type. -/
def probeInfo (dataType : DataType) : WorkloadInfo :=
  WorkloadInfo.mk [TensorInfo.mk [1] dataType] [TensorInfo.mk [1] dataType]

/-- The workload class the enabled factory instantiates for an operator kind and a
numeric type, read off by running the factory on `probeDescriptor` with accepting
constructors (`none` when it returns no workload). -/
def workloadClassFor (op : LayerType) (dataType : DataType) : Option WorkloadClass :=
  match ClWorkloadFactory.CreateWorkload (BuildConfig.mk true false) acceptAll op probeDescriptor
      (probeInfo dataType) with
  | Except.ok (some w) => some w.cls
  | _ => none

/-! ## Lemmas on `CreateSubTensorHandle` -/

theorem numeric_cast_int_of_le {v : Nat} (h : v ≤ INT_MAX) :
    numeric_cast_int v = Except.ok (Int.ofNat v) := by
  simp [numeric_cast_int, h, pure, Except.pure]

theorem numeric_cast_int_of_gt {v : Nat} (h : INT_MAX < v) :
    numeric_cast_int v = Except.error Exception.bad_numeric_cast := by
  have hn : ¬ v ≤ INT_MAX := Nat.not_le.mpr h
  simp [numeric_cast_int, hn, throw, throwThe, MonadExceptOf.throw]

/-- When every coordinate read by the loop fits an `int`, the loop started at `i`
ends normally, keeps the slots below `i` and fills every slot `j ≥ i` with
`origin[n-1-j]`. -/
theorem fillCoords_ok (n : Nat) (origin : Nat → Nat) (hv : ∀ k, k < n → origin k ≤ INT_MAX) :
    ∀ (fuel i : Nat) (coords : Coordinates), coords.length = n → i + fuel = n →
      ∃ r, fillCoords n origin fuel i coords = Except.ok r ∧ r.length = n ∧
        (∀ j, j < i → r[j]? = coords[j]?) ∧
        (∀ j, i ≤ j → j < n → r[j]? = some (Int.ofNat (origin (n - 1 - j)))) := by
  intro fuel
  induction fuel with
  | zero =>
    intro i coords hl hi
    refine ⟨coords, rfl, hl, fun _ _ => rfl, ?_⟩
    intro j h1 h2
    omega
  | succ fuel ih =>
    intro i coords hl hi
    have hin : i < n := by omega
    have hcast := numeric_cast_int_of_le (hv (n - i - 1) (by omega))
    obtain ⟨r, hr, hlen, hlow, hhigh⟩ :=
      ih (i + 1) (Coordinates.set coords i (Int.ofNat (origin (n - i - 1))))
        (by simp [Coordinates.set, hl]) (by omega)
    refine ⟨r, ?_, hlen, ?_, ?_⟩
    · simp only [fillCoords, hin, if_true, hcast]
      exact hr
    · intro j hj
      rw [hlow j (by omega)]
      simp only [Coordinates.set]
      rw [List.getElem?_set_ne (by omega)]
    · intro j h1 h2
      rcases Nat.eq_or_lt_of_le h1 with h | h
      · subst h
        rw [hlow i (by omega)]
        simp only [Coordinates.set]
        rw [List.getElem?_set_self (by omega)]
        have hidx : n - i - 1 = n - 1 - i := by omega
        rw [hidx]
      · exact hhigh j (by omega) h2

/-- The only fault the loop can end with is the checked cast's. -/
theorem fillCoords_error (n : Nat) (origin : Nat → Nat) :
    ∀ (fuel i : Nat) (coords : Coordinates) (e : Exception),
      fillCoords n origin fuel i coords = Except.error e → e = Exception.bad_numeric_cast := by
  intro fuel
  induction fuel with
  | zero =>
    intro i coords e h
    simp [fillCoords, pure, Except.pure] at h
  | succ fuel ih =>
    intro i coords e h
    by_cases hin : i < n
    · by_cases hle : origin (n - i - 1) ≤ INT_MAX
      · simp only [fillCoords, hin, if_true, numeric_cast_int_of_le hle] at h
        exact ih _ _ e h
      · simp only [fillCoords, hin, if_true,
          numeric_cast_int_of_gt (Nat.lt_of_not_le hle)] at h
        cases h
        rfl
    · simp [fillCoords, hin, pure, Except.pure] at h

/-- With the backend enabled and the assertion on the parent type passed or compiled
out, the result of `CreateSubTensorHandle` is that of the coordinate loop wrapped
into a handle. -/
theorem CreateSubTensorHandle_enabled (ndebug : Bool) (parent : ITensorHandle)
    (subTensorShape : TensorShape) (subTensorOrigin : Nat → Nat)
    (hp : ndebug = true ∨ parent.GetType = HandleType.CL) :
    ClWorkloadFactory.CreateSubTensorHandle (BuildConfig.mk true ndebug) parent subTensorShape
        subTensorOrigin
      = (fillCoords subTensorShape.GetNumDimensions subTensorOrigin
          subTensorShape.GetNumDimensions 0
          (Coordinates.set_num_dimensions subTensorShape.GetNumDimensions)).map
        (fun r => some (ClSubTensorHandle.mk parent (BuildArmComputeTensorShape subTensorShape) r)) := by
  have hassert : BOOST_ASSERT (BuildConfig.mk true ndebug) (parent.GetType == HandleType.CL)
      "parent.GetType() == ITensorHandle::CL" = Except.ok () := by
    rcases hp with h | h
    · simp [BOOST_ASSERT, h, pure, Except.pure]
    · simp [BOOST_ASSERT, h, pure, Except.pure]
  simp only [ClWorkloadFactory.CreateSubTensorHandle, if_true, hassert]
  cases fillCoords subTensorShape.GetNumDimensions subTensorOrigin
      subTensorShape.GetNumDimensions 0
      (Coordinates.set_num_dimensions subTensorShape.GetNumDimensions) <;> rfl

/-! ## C1: reversed coordinate order -/

/-- C1, amended: with the backend enabled and a CL parent handle, for every
sub-tensor shape of `n` dimensions and every origin array whose `n` coordinates are
each at most `2^31-1`, `CreateSubTensorHandle` returns a handle whose coordinate
vector has exactly `n` slots, slot `i` holding `origin[n-1-i]` for every `i < n`;
in particular `origin[0]` (axis 0) is in the highest slot `n-1`. -/
theorem CreateSubTensorHandle_coords_reversed (ndebug : Bool) (parent : ITensorHandle)
    (subTensorShape : TensorShape) (subTensorOrigin : Nat → Nat)
    (hp : parent.GetType = HandleType.CL)
    (hv : ∀ k, k < subTensorShape.GetNumDimensions → subTensorOrigin k ≤ INT_MAX) :
    ∃ h, ClWorkloadFactory.CreateSubTensorHandle (BuildConfig.mk true ndebug) parent
          subTensorShape subTensorOrigin = Except.ok (some h) ∧
      h.coords.length = subTensorShape.GetNumDimensions ∧
      (∀ i, i < subTensorShape.GetNumDimensions →
        h.coords[i]? = some (Int.ofNat (subTensorOrigin (subTensorShape.GetNumDimensions - 1 - i)))) ∧
      (0 < subTensorShape.GetNumDimensions →
        h.coords[subTensorShape.GetNumDimensions - 1]? = some (Int.ofNat (subTensorOrigin 0))) := by
  obtain ⟨r, hr, hlen, _, hhigh⟩ :=
    fillCoords_ok subTensorShape.GetNumDimensions subTensorOrigin hv
      subTensorShape.GetNumDimensions 0
      (Coordinates.set_num_dimensions subTensorShape.GetNumDimensions)
      (by simp [Coordinates.set_num_dimensions]) (by omega)
  refine ⟨ClSubTensorHandle.mk parent (BuildArmComputeTensorShape subTensorShape) r, ?_, hlen,
    fun i hi => hhigh i (Nat.zero_le i) hi, ?_⟩
  · rw [CreateSubTensorHandle_enabled ndebug parent subTensorShape subTensorOrigin (Or.inr hp), hr]
    rfl
  · intro hpos
    have hlast := hhigh (subTensorShape.GetNumDimensions - 1) (Nat.zero_le _) (by omega)
    have hz : subTensorShape.GetNumDimensions - 1 - (subTensorShape.GetNumDimensions - 1) = 0 := by
      omega
    rw [hz] at hlast
    exact hlast

/-- C1, witness: a CL parent, shape (2,3,4) and origin (5,6,7) give the coordinate
vector (7,6,5). -/
theorem CreateSubTensorHandle_coords_reversed_witness :
    ∃ h, ClWorkloadFactory.CreateSubTensorHandle (BuildConfig.mk true false)
          (ITensorHandle.mk HandleType.CL [8, 16, 32]) [2, 3, 4] (fun k => [5, 6, 7].getD k 0)
          = Except.ok (some h) ∧
      h.coords.length = TensorShape.GetNumDimensions [2, 3, 4] ∧
      (∀ i, i < TensorShape.GetNumDimensions [2, 3, 4] →
        h.coords[i]? = some (Int.ofNat ((fun k => [5, 6, 7].getD k 0)
          (TensorShape.GetNumDimensions [2, 3, 4] - 1 - i)))) ∧
      (0 < TensorShape.GetNumDimensions [2, 3, 4] →
        h.coords[TensorShape.GetNumDimensions [2, 3, 4] - 1]?
          = some (Int.ofNat ((fun k => [5, 6, 7].getD k 0) 0))) :=
  CreateSubTensorHandle_coords_reversed false (ITensorHandle.mk HandleType.CL [8, 16, 32])
    [2, 3, 4] (fun k => [5, 6, 7].getD k 0) rfl (by
      intro k hk
      have hk3 : k < 3 := hk
      interval_cases k <;> decide)

/-- C1, counterexample: with shape (1) and origin (2^31) the checked cast throws
`bad_numeric_cast`, so no coordinate vector is built for this origin array. -/
theorem CreateSubTensorHandle_origin_above_INT_MAX :
    ClWorkloadFactory.CreateSubTensorHandle (BuildConfig.mk true false)
        (ITensorHandle.mk HandleType.CL [4]) [1] (fun _ => 2147483648)
      = Except.error Exception.bad_numeric_cast ∧
    ¬ ∃ h, ClWorkloadFactory.CreateSubTensorHandle (BuildConfig.mk true false)
        (ITensorHandle.mk HandleType.CL [4]) [1] (fun _ => 2147483648) = Except.ok (some h) ∧
      h.coords.length = 1 ∧ h.coords[0]? = some 2147483648 := by
  have hres : ClWorkloadFactory.CreateSubTensorHandle (BuildConfig.mk true false)
        (ITensorHandle.mk HandleType.CL [4]) [1] (fun _ => 2147483648)
      = Except.error Exception.bad_numeric_cast := rfl
  refine ⟨hres, ?_⟩
  rintro ⟨h, hok, _⟩
  rw [hres] at hok
  cases hok

/-! ## Lemmas on `MakeWorkload` and `CreateMemCopy` -/

theorem MakeWorkload_error (construct : WorkloadConstructors) (F U : WorkloadClass)
    (d : QueueDescriptor) (info : WorkloadInfo) (e : Exception)
    (h : MakeWorkload construct F U d info = Except.error e) :
    ∃ cls, construct cls d info = Except.error e := by
  unfold MakeWorkload at h
  simp only at h
  split at h
  · simp [pure, Except.pure] at h
  · refine ⟨selectWorkload F U info.numericType, ?_⟩
    cases hc : construct (selectWorkload F U info.numericType) d info with
    | error e2 =>
      rw [hc] at h
      simp [bind, Except.bind] at h
      rw [h]
    | ok u =>
      rw [hc] at h
      simp [bind, Except.bind, pure, Except.pure] at h

theorem MakeWorkload_ne_null (construct : WorkloadConstructors) (F U : WorkloadClass)
    (d : QueueDescriptor) (info : WorkloadInfo) :
    MakeWorkload construct F U d info ≠ Except.ok none := by
  unfold MakeWorkload
  simp only
  split
  · simp [pure, Except.pure]
  · cases hc : construct (selectWorkload F U info.numericType) d info with
    | error e2 => simp [bind, Except.bind]
    | ok u => simp [bind, Except.bind, pure, Except.pure]

theorem MakeWorkload_accept (construct : WorkloadConstructors) (F U : WorkloadClass)
    (d : QueueDescriptor) (info : WorkloadInfo)
    (hc : construct (selectWorkload F U info.numericType) d info = Except.ok ()) :
    MakeWorkload construct F U d info
      = Except.ok (some (IWorkload.mk (selectWorkload F U info.numericType) d)) := by
  unfold MakeWorkload
  simp only
  split
  · next h => rw [h]; rfl
  · rw [hc]; rfl

theorem CreateMemCopy_guard_fires (ndebug : Bool) (construct : WorkloadConstructors)
    (d : QueueDescriptor) (info : WorkloadInfo) (h : nullOrEmptyInput d) :
    ClWorkloadFactory.CreateMemCopy (BuildConfig.mk true ndebug) construct d info
      = Except.error (Exception.InvalidArgumentException
          "ClWorkloadFactory: Invalid null input for MemCopy workload") := by
  obtain ⟨ins, outs⟩ := d
  unfold nullOrEmptyInput at h
  simp only at h
  rcases h with h | h
  · subst h
    rfl
  · cases ins with
    | nil => rfl
    | cons x xs =>
      simp at h
      subst h
      rfl

theorem CreateMemCopy_guard_passes (ndebug : Bool) (construct : WorkloadConstructors)
    (d : QueueDescriptor) (info : WorkloadInfo) (h : ¬ nullOrEmptyInput d) :
    ClWorkloadFactory.CreateMemCopy (BuildConfig.mk true ndebug) construct d info
      = MakeWorkload construct WorkloadClass.CopyMemGenericWorkload
          WorkloadClass.CopyMemGenericWorkload d info := by
  obtain ⟨ins, outs⟩ := d
  unfold nullOrEmptyInput at h
  simp only at h
  cases ins with
  | nil => exact (h (Or.inl rfl)).elim
  | cons x xs =>
    cases x with
    | none => exact (h (Or.inr (by simp))).elim
    | some v => rfl

/-! ## C4: the null-input guard of `CreateMemCopy` -/

/-- C4, amended: with the backend enabled, when the input-handle list is empty or its
first handle is null `CreateMemCopy` fails with `InvalidArgument` at its guard,
before any workload constructor runs: the fault is the result whatever the
constructors do.  Otherwise the guard passes and the result is that of constructing
the `CopyMemGenericWorkload`, so an `InvalidArgument` can then only be one raised
by a workload constructor.  Hence the call fails with `InvalidArgument` whatever
the constructors do if and only if the guard condition holds. -/
theorem CreateMemCopy_InvalidArgument_iff (ndebug : Bool) (descriptor : QueueDescriptor)
    (info : WorkloadInfo) :
    (nullOrEmptyInput descriptor → ∀ construct,
      ClWorkloadFactory.CreateMemCopy (BuildConfig.mk true ndebug) construct descriptor info
        = Except.error (Exception.InvalidArgumentException
            "ClWorkloadFactory: Invalid null input for MemCopy workload")) ∧
    (¬ nullOrEmptyInput descriptor → ∀ construct,
      ClWorkloadFactory.CreateMemCopy (BuildConfig.mk true ndebug) construct descriptor info
        = MakeWorkload construct WorkloadClass.CopyMemGenericWorkload
            WorkloadClass.CopyMemGenericWorkload descriptor info) ∧
    (¬ nullOrEmptyInput descriptor → ∀ (construct : WorkloadConstructors) (what : String),
      ClWorkloadFactory.CreateMemCopy (BuildConfig.mk true ndebug) construct descriptor info
        = Except.error (Exception.InvalidArgumentException what) →
      ∃ cls, construct cls descriptor info
        = Except.error (Exception.InvalidArgumentException what)) ∧
    ((∀ construct, ∃ what,
        ClWorkloadFactory.CreateMemCopy (BuildConfig.mk true ndebug) construct descriptor info
          = Except.error (Exception.InvalidArgumentException what))
      ↔ nullOrEmptyInput descriptor) := by
  refine ⟨fun h construct => CreateMemCopy_guard_fires ndebug construct descriptor info h,
    fun h construct => CreateMemCopy_guard_passes ndebug construct descriptor info h, ?_, ?_⟩
  · intro hn construct what hw
    rw [CreateMemCopy_guard_passes ndebug construct descriptor info hn] at hw
    exact MakeWorkload_error construct _ _ descriptor info _ hw
  · constructor
    · intro hall
      by_contra hn
      obtain ⟨what, hw⟩ := hall acceptAll
      rw [CreateMemCopy_guard_passes ndebug acceptAll descriptor info hn,
        MakeWorkload_accept acceptAll _ _ descriptor info rfl] at hw
      cases hw
    · intro h construct
      exact ⟨_, CreateMemCopy_guard_fires ndebug construct descriptor info h⟩

/-- C4, counterexample: a descriptor with one non-null input handle and no output
handle passes the guard of `CreateMemCopy`, yet with constructors that validate the
arity the call fails with `InvalidArgument`. -/
theorem CreateMemCopy_fails_past_guard :
    ¬ nullOrEmptyInput inputOnlyDescriptor ∧
    ClWorkloadFactory.CreateMemCopy (BuildConfig.mk true false) arityCheckingConstructors
        inputOnlyDescriptor (probeInfo DataType.Float32)
      = Except.error (Exception.InvalidArgumentException "Workload: wrong number of outputs") := by
  constructor
  · intro h
    rcases h with h | h
    · cases h
    · simp [inputOnlyDescriptor] at h
  · rfl

/-! ## C6: the backend compiled out -/

/-- C6: with the backend compiled out, `CreateTensorHandle`, `CreateSubTensorHandle`
and the workload-creation operation of every operator kind return the null result
for every input and raise nothing; this includes `CreateMemCopy` on an empty input
list. -/
theorem disabled_backend_returns_null (ndebug : Bool) (construct : WorkloadConstructors)
    (op : LayerType) (descriptor : QueueDescriptor) (info : WorkloadInfo)
    (tensorInfo : TensorInfo) (parent : ITensorHandle) (subTensorShape : TensorShape)
    (subTensorOrigin : Nat → Nat) (outputs : List (Option ITensorHandle)) :
    ClWorkloadFactory.CreateTensorHandle (BuildConfig.mk false ndebug) tensorInfo
      = Except.ok none ∧
    ClWorkloadFactory.CreateSubTensorHandle (BuildConfig.mk false ndebug) parent subTensorShape
      subTensorOrigin = Except.ok none ∧
    ClWorkloadFactory.CreateWorkload (BuildConfig.mk false ndebug) construct op descriptor info
      = Except.ok none ∧
    ClWorkloadFactory.CreateMemCopy (BuildConfig.mk false ndebug) construct
      (QueueDescriptor.mk [] outputs) info = Except.ok none := by
  refine ⟨rfl, rfl, ?_, rfl⟩
  cases op <;> rfl

/-! ## Lemmas on the normalization workload constructor -/

/-- The test of lines 41-44 is true exactly when the shapes differ on one of the
axes 0..3. -/
theorem dimensionalityDiffers_iff (input output : TensorShape) :
    dimensionalityDiffers input output = true ↔ ∃ a, a < 4 ∧ input.at a ≠ output.at a := by
  unfold dimensionalityDiffers
  simp only [Bool.or_eq_true, bne_iff_ne, ne_eq]
  constructor
  · rintro (((h | h) | h) | h)
    · exact ⟨1, by decide, h⟩
    · exact ⟨0, by decide, h⟩
    · exact ⟨3, by decide, h⟩
    · exact ⟨2, by decide, h⟩
  · rintro ⟨a, ha, hne⟩
    interval_cases a
    · exact Or.inl (Or.inl (Or.inr hne))
    · exact Or.inl (Or.inl (Or.inl hne))
    · exact Or.inr hne
    · exact Or.inl (Or.inr hne)

/-- The constructor once the base class and the arity validation have accepted and
the parameters are supported: only the dimensionality test is left. -/
theorem NeonNormalization_new_supported (ext : NeonExternals)
    (descriptor : NormalizationQueueDescriptor) (info : WorkloadInfo)
    (hbase : ext.FloatWorkload descriptor info = Except.ok ())
    (harity : ext.ValidateInputsOutputs descriptor.toQueueDescriptor
      "NeonNormalizationFloat32Workload" 1 1 = Except.ok ())
    (hsup : (ext.IsNeonNormalizationDescParamsSupported descriptor.m_Parameters).1 = true) :
    NeonNormalizationFloat32Workload.new ext descriptor info
      = match info.m_InputTensorInfos, info.m_OutputTensorInfos with
        | input :: _, output :: _ =>
          if dimensionalityDiffers input.m_Shape output.m_Shape then
            Except.error (Exception.InvalidArgumentException dimensionalityMessage)
          else
            Except.ok (NeonNormalizationFloat32Workload.mk descriptor)
        | _, _ => Except.error (Exception.assertion_failed "vector subscript out of range") := by
  unfold NeonNormalizationFloat32Workload.new
  rw [hbase, harity]
  cases hs : ext.IsNeonNormalizationDescParamsSupported descriptor.m_Parameters with
  | mk supported reason =>
    rw [hs] at hsup
    simp only at hsup
    subst hsup
    rfl

/-- The constructor once the base class and the arity validation have accepted and
the parameters are not supported: `Unimplemented`, and `info` is not looked at. -/
theorem NeonNormalization_new_unsupported (ext : NeonExternals)
    (descriptor : NormalizationQueueDescriptor) (info : WorkloadInfo)
    (hbase : ext.FloatWorkload descriptor info = Except.ok ())
    (harity : ext.ValidateInputsOutputs descriptor.toQueueDescriptor
      "NeonNormalizationFloat32Workload" 1 1 = Except.ok ())
    (hsup : (ext.IsNeonNormalizationDescParamsSupported descriptor.m_Parameters).1 = false) :
    NeonNormalizationFloat32Workload.new ext descriptor info
      = Except.error (Exception.UnimplementedException
          (ext.IsNeonNormalizationDescParamsSupported descriptor.m_Parameters).2) := by
  unfold NeonNormalizationFloat32Workload.new
  rw [hbase, harity]
  cases hs : ext.IsNeonNormalizationDescParamsSupported descriptor.m_Parameters with
  | mk supported reason =>
    rw [hs] at hsup
    simp only at hsup
    subst hsup
    rfl

/-- Two 4-dimensional shapes are equal exactly when they agree on the axes 0..3. -/
theorem shapes_eq_iff_axes (input output : TensorShape)
    (h4in : input.GetNumDimensions = 4) (h4out : output.GetNumDimensions = 4) :
    input = output ↔ ∀ a, a < 4 → input.at a = output.at a := by
  constructor
  · intro h a _
    rw [h]
  · intro h
    match input, output, h4in, h4out with
    | [i0, i1, i2, i3], [o0, o1, o2, o3], _, _ =>
      have h0 := h 0 (by decide)
      have h1 := h 1 (by decide)
      have h2 := h 2 (by decide)
      have h3 := h 3 (by decide)
      simp only [TensorShape.at, List.getD_cons_zero, List.getD_cons_succ] at h0 h1 h2 h3
      rw [h0, h1, h2, h3]

/-! ## C5: the dimensionality check -/

/-- C5: for 4-dimensional input and output shapes, once the arity validation for one
input and one output has accepted and the normalization parameters are supported,
the constructor of `NeonNormalizationFloat32Workload` fails with `InvalidArgument`
if and only if the two shapes differ in the extent of one of the axes 0..3 (that
is, if and only if they are different shapes); otherwise the workload is
constructed. -/
theorem NeonNormalization_dimensionality_check (ext : NeonExternals)
    (descriptor : NormalizationQueueDescriptor) (info : WorkloadInfo)
    (input output : TensorInfo)
    (hbase : ext.FloatWorkload descriptor info = Except.ok ())
    (harity : ext.ValidateInputsOutputs descriptor.toQueueDescriptor
      "NeonNormalizationFloat32Workload" 1 1 = Except.ok ())
    (hsup : (ext.IsNeonNormalizationDescParamsSupported descriptor.m_Parameters).1 = true)
    (hin : info.m_InputTensorInfos = [input]) (hout : info.m_OutputTensorInfos = [output])
    (h4in : input.m_Shape.GetNumDimensions = 4) (h4out : output.m_Shape.GetNumDimensions = 4) :
    ((∃ what, NeonNormalizationFloat32Workload.new ext descriptor info
        = Except.error (Exception.InvalidArgumentException what))
      ↔ ∃ a, a < 4 ∧ input.m_Shape.at a ≠ output.m_Shape.at a) ∧
    ((∃ a, a < 4 ∧ input.m_Shape.at a ≠ output.m_Shape.at a) →
      NeonNormalizationFloat32Workload.new ext descriptor info
        = Except.error (Exception.InvalidArgumentException dimensionalityMessage)) ∧
    ((¬ ∃ a, a < 4 ∧ input.m_Shape.at a ≠ output.m_Shape.at a) →
      NeonNormalizationFloat32Workload.new ext descriptor info
        = Except.ok (NeonNormalizationFloat32Workload.mk descriptor)) ∧
    ((∃ a, a < 4 ∧ input.m_Shape.at a ≠ output.m_Shape.at a)
      ↔ input.m_Shape ≠ output.m_Shape) := by
  have hnew := NeonNormalization_new_supported ext descriptor info hbase harity hsup
  rw [hin, hout] at hnew
  simp only at hnew
  have hyes : (∃ a, a < 4 ∧ input.m_Shape.at a ≠ output.m_Shape.at a) →
      NeonNormalizationFloat32Workload.new ext descriptor info
        = Except.error (Exception.InvalidArgumentException dimensionalityMessage) := by
    intro hd
    rw [hnew, if_pos ((dimensionalityDiffers_iff _ _).mpr hd)]
  have hno : (¬ ∃ a, a < 4 ∧ input.m_Shape.at a ≠ output.m_Shape.at a) →
      NeonNormalizationFloat32Workload.new ext descriptor info
        = Except.ok (NeonNormalizationFloat32Workload.mk descriptor) := by
    intro hd
    have hf : ¬ dimensionalityDiffers input.m_Shape output.m_Shape = true :=
      fun h => hd ((dimensionalityDiffers_iff _ _).mp h)
    rw [hnew, if_neg hf]
  refine ⟨⟨?_, fun hd => ⟨_, hyes hd⟩⟩, hyes, hno, ?_⟩
  · rintro ⟨what, hw⟩
    by_contra hd
    rw [hno hd] at hw
    cases hw
  · rw [ne_eq, shapes_eq_iff_axes _ _ h4in h4out]
    constructor
    · rintro ⟨a, ha, hne⟩ hall
      exact hne (hall a ha)
    · intro hnall
      by_contra hex
      apply hnall
      intro a ha
      by_contra hne
      exact hex ⟨a, ha, hne⟩

/-- C5, witness: the scenario of section 8, input (1,4,4,3) against output
(1,4,4,4), is rejected with `InvalidArgument`. -/
theorem NeonNormalization_dimensionality_check_witness :
    NeonNormalizationFloat32Workload.new exampleExternals
        (exampleDescriptor NormalizationAlgorithmMethod.LocalBrightness) exampleInfo
      = Except.error (Exception.InvalidArgumentException dimensionalityMessage) :=
  (NeonNormalization_dimensionality_check exampleExternals
    (exampleDescriptor NormalizationAlgorithmMethod.LocalBrightness) exampleInfo
    (TensorInfo.mk [1, 4, 4, 3] DataType.Float32) (TensorInfo.mk [1, 4, 4, 4] DataType.Float32)
    rfl rfl rfl rfl rfl rfl rfl).2.1 ⟨3, by decide, by decide⟩

/-! ## C9: the order of the constructor's checks -/

/-- C9, amended: a fault of the base-class constructor comes before every check of
the constructor body and is the result of the construction.  Once the base-class
constructor has accepted, the body checks run in a fixed order, the arity
validation (for exactly 1 input and 1 output) first, the parameter-support test
second and the dimensionality test last: a fault of the arity validation is the
result of the construction; with the arity accepted and unsupported parameters
the construction fails with `Unimplemented` whatever the shapes in `info` are; and
the dimensionality `InvalidArgument` is raised only for supported parameters (and
differing shapes). -/
theorem NeonNormalization_check_order (ext : NeonExternals)
    (descriptor : NormalizationQueueDescriptor) (info : WorkloadInfo) :
    (∀ e, ext.FloatWorkload descriptor info = Except.error e →
      NeonNormalizationFloat32Workload.new ext descriptor info = Except.error e) ∧
    (ext.FloatWorkload descriptor info = Except.ok () →
      (∀ e, ext.ValidateInputsOutputs descriptor.toQueueDescriptor
          "NeonNormalizationFloat32Workload" 1 1 = Except.error e →
        NeonNormalizationFloat32Workload.new ext descriptor info = Except.error e) ∧
      (ext.ValidateInputsOutputs descriptor.toQueueDescriptor
          "NeonNormalizationFloat32Workload" 1 1 = Except.ok () →
        (ext.IsNeonNormalizationDescParamsSupported descriptor.m_Parameters).1 = false →
        NeonNormalizationFloat32Workload.new ext descriptor info
          = Except.error (Exception.UnimplementedException
              (ext.IsNeonNormalizationDescParamsSupported descriptor.m_Parameters).2)) ∧
      (ext.ValidateInputsOutputs descriptor.toQueueDescriptor
          "NeonNormalizationFloat32Workload" 1 1 = Except.ok () →
        NeonNormalizationFloat32Workload.new ext descriptor info
          = Except.error (Exception.InvalidArgumentException dimensionalityMessage) →
        (ext.IsNeonNormalizationDescParamsSupported descriptor.m_Parameters).1 = true ∧
        ∃ input output restIn restOut, info.m_InputTensorInfos = input :: restIn ∧
          info.m_OutputTensorInfos = output :: restOut ∧
          dimensionalityDiffers input.m_Shape output.m_Shape = true)) := by
  constructor
  · intro e he
    unfold NeonNormalizationFloat32Workload.new
    rw [he]
    rfl
  intro hbase
  refine ⟨?_, fun harity hsup =>
    NeonNormalization_new_unsupported ext descriptor info hbase harity hsup, ?_⟩
  · intro e he
    unfold NeonNormalizationFloat32Workload.new
    rw [hbase, he]
    rfl
  · intro harity hnew
    cases hsup : (ext.IsNeonNormalizationDescParamsSupported descriptor.m_Parameters).1 with
    | false =>
      rw [NeonNormalization_new_unsupported ext descriptor info hbase harity hsup] at hnew
      cases hnew
    | true =>
      refine ⟨rfl, ?_⟩
      rw [NeonNormalization_new_supported ext descriptor info hbase harity hsup] at hnew
      match hi : info.m_InputTensorInfos, ho : info.m_OutputTensorInfos with
      | input :: restIn, output :: restOut =>
        rw [hi, ho] at hnew
        simp only at hnew
        refine ⟨input, output, restIn, restOut, rfl, rfl, ?_⟩
        by_contra hd
        rw [if_neg hd] at hnew
        cases hnew
      | [], _ =>
        rw [hi] at hnew
        simp at hnew
      | _ :: _, [] =>
        rw [hi, ho] at hnew
        simp at hnew

/-- C9, witness: with an accepting base class, one input, one output, an unsupported
method and mismatching shapes (1,4,4,3) and (1,4,4,4) the construction fails with
`Unimplemented`, not with the `InvalidArgument` of the dimensionality test. -/
theorem NeonNormalization_check_order_witness :
    NeonNormalizationFloat32Workload.new exampleExternals
        (exampleDescriptor NormalizationAlgorithmMethod.LocalContrast) exampleInfo
      = Except.error (Exception.UnimplementedException "Unsupported normalisation method type") :=
  ((NeonNormalization_check_order exampleExternals
    (exampleDescriptor NormalizationAlgorithmMethod.LocalContrast) exampleInfo).2 rfl).2.1 rfl rfl

/-- C9, counterexample: one input, one output, an unsupported method and mismatching
shapes (1,4,4,3) and (1,4,4,4), with a base class that validates the shapes: the
arity is correct and the parameters are unsupported, yet the construction fails
with `InvalidArgument`, not with `Unimplemented`. -/
theorem NeonNormalization_base_class_fault_first :
    validatingExternals.ValidateInputsOutputs
        (exampleDescriptor NormalizationAlgorithmMethod.LocalContrast).toQueueDescriptor
        "NeonNormalizationFloat32Workload" 1 1 = Except.ok () ∧
    (validatingExternals.IsNeonNormalizationDescParamsSupported
        (exampleDescriptor NormalizationAlgorithmMethod.LocalContrast).m_Parameters).1 = false ∧
    NeonNormalizationFloat32Workload.new validatingExternals
        (exampleDescriptor NormalizationAlgorithmMethod.LocalContrast) exampleInfo
      = Except.error (Exception.InvalidArgumentException "input and output shapes do not match") :=
  ⟨rfl, rfl, rfl⟩

/-! ## Lemmas on the workload-creation operations -/

theorem MakeWorkload_ok_cls (construct : WorkloadConstructors) (F U : WorkloadClass)
    (d : QueueDescriptor) (info : WorkloadInfo) (w : IWorkload)
    (h : MakeWorkload construct F U d info = Except.ok (some w)) :
    w.cls = selectWorkload F U info.numericType := by
  unfold MakeWorkload at h
  simp only at h
  split at h
  · next hn =>
    simp only [pure, Except.pure, Except.ok.injEq, Option.some.injEq] at h
    rw [← h, hn]
  · cases hc : construct (selectWorkload F U info.numericType) d info with
    | error e =>
      rw [hc] at h
      simp [bind, Except.bind] at h
    | ok u =>
      rw [hc] at h
      simp only [bind, Except.bind, pure, Except.pure, Except.ok.injEq, Option.some.injEq] at h
      rw [← h]

theorem make_unique_ne_null (construct : WorkloadConstructors) (W : WorkloadClass)
    (d : QueueDescriptor) (info : WorkloadInfo) :
    make_unique construct W d info ≠ Except.ok none := by
  unfold make_unique
  cases hc : construct W d info with
  | error e => simp [bind, Except.bind]
  | ok u => simp [bind, Except.bind, pure, Except.pure]

theorem make_unique_accept (construct : WorkloadConstructors) (W : WorkloadClass)
    (d : QueueDescriptor) (info : WorkloadInfo) (hc : construct W d info = Except.ok ()) :
    make_unique construct W d info = Except.ok (some (IWorkload.mk W d)) := by
  unfold make_unique
  rw [hc]
  rfl

theorem MakeWorkload_placeholder (construct : WorkloadConstructors) (F : WorkloadClass)
    (d : QueueDescriptor) (info : WorkloadInfo)
    (h : info.numericType = some DataType.QuantisedAsymm8) :
    MakeWorkload construct F WorkloadClass.NullWorkload d info
      = Except.ok (some (IWorkload.mk WorkloadClass.NullWorkload d)) := by
  unfold MakeWorkload
  rw [h]
  rfl

/-- With the backend enabled, the operation of an operator kind dispatched through
`MakeWorkload` either is stopped by the guard of `CreateMemCopy` or returns what
`MakeWorkload` returns for a pair of classes fixed by the operator kind. -/
theorem CreateWorkload_enabled_dispatch (ndebug : Bool) (construct : WorkloadConstructors)
    (op : LayerType) (d : QueueDescriptor) (info : WorkloadInfo)
    (hop : dispatchedThroughMakeWorkload op = true) :
    ∃ F U, (∀ dt, workloadClassFor op dt = some (selectWorkload F U (some dt))) ∧
      (ClWorkloadFactory.CreateWorkload (BuildConfig.mk true ndebug) construct op d info
          = MakeWorkload construct F U d info ∨
        (op = LayerType.MemCopy ∧ nullOrEmptyInput d ∧
          ClWorkloadFactory.CreateWorkload (BuildConfig.mk true ndebug) construct op d info
            = Except.error (Exception.InvalidArgumentException
                "ClWorkloadFactory: Invalid null input for MemCopy workload"))) := by
  cases op with
  | FakeQuantization => exact absurd hop (by decide)
  | ConvertFp16ToFp32 => exact absurd hop (by decide)
  | ConvertFp32ToFp16 => exact absurd hop (by decide)
  | MemCopy =>
    refine ⟨WorkloadClass.CopyMemGenericWorkload, WorkloadClass.CopyMemGenericWorkload,
      fun dt => by cases dt <;> rfl, ?_⟩
    by_cases hg : nullOrEmptyInput d
    · exact Or.inr ⟨rfl, hg, CreateMemCopy_guard_fires ndebug construct d info hg⟩
    · exact Or.inl (CreateMemCopy_guard_passes ndebug construct d info hg)
  | _ => exact ⟨_, _, fun dt => by cases dt <;> rfl, Or.inl rfl⟩

/-- A history of lifecycle calls without `Finalize` leaves the memory manager of an
enabled factory `Unfinalized`. -/
theorem after_without_Finalize (ndebug : Bool) :
    ∀ (history : List LifecycleCall) (f : ClWorkloadFactory),
      LifecycleCall.Finalize ∉ history →
      f.m_MemoryManager.state = MemoryGroupState.Unfinalized →
      (ClWorkloadFactory.after (BuildConfig.mk true ndebug) f history).m_MemoryManager.state
        = MemoryGroupState.Unfinalized := by
  intro history
  induction history with
  | nil =>
    intro f _ hf
    exact hf
  | cons c cs ih =>
    intro f hno hf
    have hcs : LifecycleCall.Finalize ∉ cs := fun h => hno (List.mem_cons_of_mem _ h)
    obtain ⟨⟨st⟩⟩ := f
    simp only at hf
    subst hf
    cases c with
    | Finalize => exact absurd (List.mem_cons_self _ _) hno
    | Release => exact ih _ hcs rfl
    | Acquire => exact ih _ hcs rfl

/-! ## C7: null results of the enabled factory -/

/-- C7, amended: with the backend enabled, `CreateFakeQuantization` returns the null
result for every descriptor and info; the operation of every other operator kind
never returns null: it returns a non-null workload unless the guard of
`CreateMemCopy` or a workload constructor throws, and for an operator kind without
Uint8 implementation a Uint8 `info` yields the placeholder workload. -/
theorem enabled_backend_null_results (ndebug : Bool) (construct : WorkloadConstructors)
    (descriptor : QueueDescriptor) (info : WorkloadInfo) :
    ClWorkloadFactory.CreateFakeQuantization (BuildConfig.mk true ndebug) construct descriptor info
      = Except.ok none ∧
    (∀ op, op ≠ LayerType.FakeQuantization →
      ClWorkloadFactory.CreateWorkload (BuildConfig.mk true ndebug) construct op descriptor info
        ≠ Except.ok none) ∧
    (∀ op, op ≠ LayerType.FakeQuantization →
      (∀ cls, construct cls descriptor info = Except.ok ()) →
      (op = LayerType.MemCopy → ¬ nullOrEmptyInput descriptor) →
      ∃ w, ClWorkloadFactory.CreateWorkload (BuildConfig.mk true ndebug) construct op descriptor
        info = Except.ok (some w)) ∧
    (∀ op, op ∈ nullUint8Kinds → info.numericType = some DataType.QuantisedAsymm8 →
      ClWorkloadFactory.CreateWorkload (BuildConfig.mk true ndebug) construct op descriptor info
        = Except.ok (some (IWorkload.mk WorkloadClass.NullWorkload descriptor))) := by
  refine ⟨rfl, ?_, ?_, ?_⟩
  · intro op hop
    by_cases hd : dispatchedThroughMakeWorkload op = true
    · obtain ⟨F, U, _, h | ⟨_, _, h⟩⟩ :=
        CreateWorkload_enabled_dispatch ndebug construct op descriptor info hd
      · rw [h]
        exact MakeWorkload_ne_null construct F U descriptor info
      · rw [h]
        intro hc
        cases hc
    · cases op with
      | FakeQuantization => exact absurd rfl hop
      | ConvertFp16ToFp32 => exact make_unique_ne_null construct _ descriptor info
      | ConvertFp32ToFp16 => exact make_unique_ne_null construct _ descriptor info
      | _ => exact absurd rfl hd
  · intro op hop hc hguard
    by_cases hd : dispatchedThroughMakeWorkload op = true
    · obtain ⟨F, U, _, h | ⟨hm, hg, _⟩⟩ :=
        CreateWorkload_enabled_dispatch ndebug construct op descriptor info hd
      · rw [h, MakeWorkload_accept construct F U descriptor info (hc _)]
        exact ⟨_, rfl⟩
      · exact absurd hg (hguard hm)
    · cases op with
      | FakeQuantization => exact absurd rfl hop
      | ConvertFp16ToFp32 => exact ⟨_, make_unique_accept construct _ descriptor info (hc _)⟩
      | ConvertFp32ToFp16 => exact ⟨_, make_unique_accept construct _ descriptor info (hc _)⟩
      | _ => exact absurd rfl hd
  · intro op hop hdt
    simp only [nullUint8Kinds, List.mem_cons, List.mem_singleton, List.not_mem_nil, or_false]
      at hop
    rcases hop with h | h | h | h | h | h | h | h <;> subst h <;>
      exact MakeWorkload_placeholder construct _ descriptor info hdt

/-- C7, counterexample: with the backend enabled, `CreateFakeQuantization` on a
one-input, one-output float descriptor returns the null result. -/
theorem CreateFakeQuantization_returns_null :
    ClWorkloadFactory.CreateFakeQuantization (BuildConfig.mk true false) acceptAll probeDescriptor
      (probeInfo DataType.Float32) = Except.ok none := rfl

/-! ## C8: `Acquire` before `Finalize` -/

/-- C8, amended: with the backend enabled, `Acquire` on a factory that was freshly
constructed and has since seen no `Finalize` (whatever `Acquire` and `Release`
calls it has seen) fails with `ResourceFault`; with the backend compiled out
`Acquire` has an empty body and succeeds on every factory, leaving it unchanged. -/
theorem Acquire_before_Finalize (ndebug : Bool) (history : List LifecycleCall)
    (hno : LifecycleCall.Finalize ∉ history) :
    (ClWorkloadFactory.after (BuildConfig.mk true ndebug) ClWorkloadFactory.new history).Acquire
        (BuildConfig.mk true ndebug)
      = Except.error (Exception.ResourceFault "Acquire before Finalize") ∧
    (∀ g : ClWorkloadFactory, g.Acquire (BuildConfig.mk false ndebug) = Except.ok g) := by
  have hst := after_without_Finalize ndebug history ClWorkloadFactory.new hno rfl
  generalize ClWorkloadFactory.after (BuildConfig.mk true ndebug) ClWorkloadFactory.new history
    = f at hst
  obtain ⟨⟨st⟩⟩ := f
  simp only at hst
  subst hst
  exact ⟨rfl, fun _ => rfl⟩

/-- C8, witness: an enabled factory that has seen a (failed) `Acquire` and a (failed)
`Release` but no `Finalize`. -/
theorem Acquire_before_Finalize_witness :
    (ClWorkloadFactory.after (BuildConfig.mk true false) ClWorkloadFactory.new
        [LifecycleCall.Acquire, LifecycleCall.Release]).Acquire (BuildConfig.mk true false)
      = Except.error (Exception.ResourceFault "Acquire before Finalize") ∧
    (∀ g : ClWorkloadFactory, g.Acquire (BuildConfig.mk false false) = Except.ok g) :=
  Acquire_before_Finalize false [LifecycleCall.Acquire, LifecycleCall.Release] (by decide)

/-- C8, counterexample: with the backend compiled out, `Acquire` on a freshly
constructed factory, on which `Finalize` has not been called, succeeds. -/
theorem Acquire_disabled_succeeds :
    ClWorkloadFactory.after (BuildConfig.mk false false) ClWorkloadFactory.new []
      = ClWorkloadFactory.new ∧
    ClWorkloadFactory.new.Acquire (BuildConfig.mk false false)
      = Except.ok ClWorkloadFactory.new := ⟨rfl, rfl⟩

/-! ## C10: the dispatch table -/

/-- C10, amended: on the enabled backend the operator kinds dispatched through
`MakeWorkload` whose Uint8 workload is `NullWorkload` are exactly FullyConnected,
Normalization, Multiplication, BatchNormalization, ResizeBilinear,
L2Normalization, Floor and Lstm; every dispatched kind has a concrete float
workload (the same for `Float16` and `Float32`), every other dispatched kind also
a concrete Uint8 workload, which differs from the float one except for Input,
Output and MemCopy; and the class of a created workload is fixed by the operator
kind and the numeric type read from `info` alone. -/
theorem MakeWorkload_dispatch_table :
    (∀ op, dispatchedThroughMakeWorkload op = true →
      (workloadClassFor op DataType.QuantisedAsymm8 = some WorkloadClass.NullWorkload
        ↔ op ∈ nullUint8Kinds)) ∧
    (∀ op, dispatchedThroughMakeWorkload op = true →
      ∃ fl, workloadClassFor op DataType.Float16 = some fl ∧
        workloadClassFor op DataType.Float32 = some fl ∧ fl ≠ WorkloadClass.NullWorkload) ∧
    (∀ op, dispatchedThroughMakeWorkload op = true → op ∉ nullUint8Kinds →
      ∃ u8, workloadClassFor op DataType.QuantisedAsymm8 = some u8 ∧
        u8 ≠ WorkloadClass.NullWorkload ∧
        (workloadClassFor op DataType.Float32 = some u8
          ↔ op ∈ [LayerType.Input, LayerType.Output, LayerType.MemCopy])) ∧
    (∀ (ndebug : Bool) (construct : WorkloadConstructors) (op : LayerType)
        (d : QueueDescriptor) (info : WorkloadInfo) (w : IWorkload) (dt : DataType),
      dispatchedThroughMakeWorkload op = true →
      ClWorkloadFactory.CreateWorkload (BuildConfig.mk true ndebug) construct op d info
        = Except.ok (some w) →
      info.numericType = some dt →
      workloadClassFor op dt = some w.cls) := by
  refine ⟨?_, ?_, ?_, ?_⟩
  · intro op
    cases op <;> decide
  · intro op
    cases op <;> first
      | (intro h; exact absurd h (by decide))
      | (intro _; exact ⟨_, rfl, rfl, by decide⟩)
  · intro op
    cases op <;> first
      | (intro h; exact absurd h (by decide))
      | (intro _ h; exact absurd (by decide) h)
      | (intro _ _; exact ⟨_, rfl, by decide, by decide⟩)
  · intro ndebug construct op d info w dt hop hw hdt
    obtain ⟨F, U, htab, h | ⟨_, _, h⟩⟩ :=
      CreateWorkload_enabled_dispatch ndebug construct op d info hop
    · rw [h] at hw
      rw [htab dt, MakeWorkload_ok_cls construct F U d info w hw, hdt]
    · rw [h] at hw
      cases hw

/-- C10, counterexample: Input is dispatched through `MakeWorkload` and is not among
the kinds without Uint8 implementation, yet its float and its Uint8 workload are
the same class, `CopyMemGenericWorkload`. -/
theorem CreateInput_same_class_for_both_types :
    dispatchedThroughMakeWorkload LayerType.Input = true ∧
    LayerType.Input ∉ nullUint8Kinds ∧
    ClWorkloadFactory.CreateInput (BuildConfig.mk true false) acceptAll probeDescriptor
        (probeInfo DataType.Float32)
      = Except.ok (some (IWorkload.mk WorkloadClass.CopyMemGenericWorkload probeDescriptor)) ∧
    ClWorkloadFactory.CreateInput (BuildConfig.mk true false) acceptAll probeDescriptor
        (probeInfo DataType.QuantisedAsymm8)
      = Except.ok (some (IWorkload.mk WorkloadClass.CopyMemGenericWorkload probeDescriptor)) :=
  ⟨rfl, by decide, rfl, rfl⟩

/-! ## C11: the checked cast of the origin coordinates -/

/-- When one of the coordinates the loop still has to read is above `INT_MAX`, the
loop ends with the fault of the checked cast. -/
theorem fillCoords_overflow (n : Nat) (origin : Nat → Nat) :
    ∀ (fuel i : Nat) (coords : Coordinates), i + fuel = n →
      (∃ k, k < n - i ∧ INT_MAX < origin k) →
      fillCoords n origin fuel i coords = Except.error Exception.bad_numeric_cast := by
  intro fuel
  induction fuel with
  | zero =>
    intro i coords hi hex
    obtain ⟨k, hk, _⟩ := hex
    omega
  | succ fuel ih =>
    intro i coords hi hex
    have hin : i < n := by omega
    by_cases hle : origin (n - i - 1) ≤ INT_MAX
    · simp only [fillCoords, hin, if_true, numeric_cast_int_of_le hle]
      apply ih (i + 1) _ (by omega)
      obtain ⟨k, hk, hgt⟩ := hex
      refine ⟨k, ?_, hgt⟩
      have hne : k ≠ n - i - 1 := by
        intro h
        rw [h] at hgt
        exact absurd hle (Nat.not_le.mpr hgt)
      omega
    · simp only [fillCoords, hin, if_true, numeric_cast_int_of_gt (Nat.lt_of_not_le hle)]
      rfl

/-- C11: with the backend enabled and a CL parent, when every origin coordinate is at
most `2^31-1` the call returns a handle in which the slot of each coordinate holds
exactly its value; when some origin coordinate is greater than `2^31-1` the call
fails with `bad_numeric_cast` and returns no handle; and no handle the call
returns has a negative coordinate. -/
theorem CreateSubTensorHandle_checked_cast (ndebug : Bool) (parent : ITensorHandle)
    (subTensorShape : TensorShape) (subTensorOrigin : Nat → Nat)
    (hp : parent.GetType = HandleType.CL) :
    ((∀ k, k < subTensorShape.GetNumDimensions → subTensorOrigin k ≤ INT_MAX) →
      ∃ h, ClWorkloadFactory.CreateSubTensorHandle (BuildConfig.mk true ndebug) parent
            subTensorShape subTensorOrigin = Except.ok (some h) ∧
        ∀ k, k < subTensorShape.GetNumDimensions →
          h.coords[subTensorShape.GetNumDimensions - 1 - k]?
            = some (Int.ofNat (subTensorOrigin k))) ∧
    ((∃ k, k < subTensorShape.GetNumDimensions ∧ INT_MAX < subTensorOrigin k) →
      ClWorkloadFactory.CreateSubTensorHandle (BuildConfig.mk true ndebug) parent
          subTensorShape subTensorOrigin = Except.error Exception.bad_numeric_cast) ∧
    (∀ h, ClWorkloadFactory.CreateSubTensorHandle (BuildConfig.mk true ndebug) parent
          subTensorShape subTensorOrigin = Except.ok (some h) →
      ∀ i, i < subTensorShape.GetNumDimensions → ∃ v, h.coords[i]? = some v ∧ 0 ≤ v) := by
  have hen := CreateSubTensorHandle_enabled ndebug parent subTensorShape subTensorOrigin
    (Or.inr hp)
  have hin : ∀ (hv : ∀ k, k < subTensorShape.GetNumDimensions → subTensorOrigin k ≤ INT_MAX),
      ∃ h, ClWorkloadFactory.CreateSubTensorHandle (BuildConfig.mk true ndebug) parent
            subTensorShape subTensorOrigin = Except.ok (some h) ∧
        ∀ i, i < subTensorShape.GetNumDimensions →
          h.coords[i]? = some (Int.ofNat
            (subTensorOrigin (subTensorShape.GetNumDimensions - 1 - i))) := by
    intro hv
    obtain ⟨r, hr, _, _, hhigh⟩ :=
      fillCoords_ok subTensorShape.GetNumDimensions subTensorOrigin hv
        subTensorShape.GetNumDimensions 0
        (Coordinates.set_num_dimensions subTensorShape.GetNumDimensions)
        (by simp [Coordinates.set_num_dimensions]) (by omega)
    refine ⟨ClSubTensorHandle.mk parent (BuildArmComputeTensorShape subTensorShape) r, ?_,
      fun i hi => hhigh i (Nat.zero_le i) hi⟩
    rw [hen, hr]
    rfl
  have hover : (∃ k, k < subTensorShape.GetNumDimensions ∧ INT_MAX < subTensorOrigin k) →
      ClWorkloadFactory.CreateSubTensorHandle (BuildConfig.mk true ndebug) parent
          subTensorShape subTensorOrigin = Except.error Exception.bad_numeric_cast := by
    intro hex
    rw [hen, fillCoords_overflow subTensorShape.GetNumDimensions subTensorOrigin
      subTensorShape.GetNumDimensions 0 _ (by omega) (by simpa using hex)]
    rfl
  refine ⟨?_, hover, ?_⟩
  · intro hv
    obtain ⟨h, hok, hslots⟩ := hin hv
    refine ⟨h, hok, ?_⟩
    intro k hk
    have hs := hslots (subTensorShape.GetNumDimensions - 1 - k) (by omega)
    have hidx : subTensorShape.GetNumDimensions - 1
        - (subTensorShape.GetNumDimensions - 1 - k) = k := by omega
    rw [hidx] at hs
    exact hs
  · intro h hok i hi
    by_cases hv : ∀ k, k < subTensorShape.GetNumDimensions → subTensorOrigin k ≤ INT_MAX
    · obtain ⟨h2, hok2, hslots⟩ := hin hv
      rw [hok] at hok2
      cases hok2
      exact ⟨_, hslots i hi, Int.ofNat_nonneg _⟩
    · have hex : ∃ k, k < subTensorShape.GetNumDimensions ∧ INT_MAX < subTensorOrigin k := by
        by_contra hne
        apply hv
        intro k hk
        by_contra hgt
        exact hne ⟨k, hk, Nat.lt_of_not_le hgt⟩
      rw [hover hex] at hok
      cases hok

/-- C11, witness: on a CL parent, origin (5,6,7) is stored as the coordinates
(7,6,5) with the same values, and origin (5, 2^31, 7) makes the call fail with
`bad_numeric_cast`. -/
theorem CreateSubTensorHandle_checked_cast_witness :
    (∃ h, ClWorkloadFactory.CreateSubTensorHandle (BuildConfig.mk true false)
          (ITensorHandle.mk HandleType.CL [8, 16, 32]) [2, 3, 4] (fun k => [5, 6, 7].getD k 0)
          = Except.ok (some h) ∧
      ∀ k, k < TensorShape.GetNumDimensions [2, 3, 4] →
        h.coords[TensorShape.GetNumDimensions [2, 3, 4] - 1 - k]?
          = some (Int.ofNat ((fun k => [5, 6, 7].getD k 0) k))) ∧
    ClWorkloadFactory.CreateSubTensorHandle (BuildConfig.mk true false)
        (ITensorHandle.mk HandleType.CL [8, 16, 32]) [2, 3, 4]
        (fun k => [5, 2147483648, 7].getD k 0)
      = Except.error Exception.bad_numeric_cast :=
  ⟨(CreateSubTensorHandle_checked_cast false (ITensorHandle.mk HandleType.CL [8, 16, 32])
      [2, 3, 4] (fun k => [5, 6, 7].getD k 0) rfl).1 (by
        intro k hk
        have hk3 : k < 3 := hk
        interval_cases k <;> decide),
    (CreateSubTensorHandle_checked_cast false (ITensorHandle.mk HandleType.CL [8, 16, 32])
      [2, 3, 4] (fun k => [5, 2147483648, 7].getD k 0) rfl).2.1 ⟨1, by decide, by decide⟩⟩

/-! ## Lemmas on `CreateSubTensorHandle` with the constructor left open -/

/-- With the backend enabled and the assertion on the parent type passed or compiled
out, the call is the coordinate loop followed by the constructor. -/
theorem CreateSubTensorHandleWith_enabled (ctor : SubTensorConstructor) (ndebug : Bool)
    (parent : ITensorHandle) (subTensorShape : TensorShape) (subTensorOrigin : Nat → Nat)
    (hp : ndebug = true ∨ parent.GetType = HandleType.CL) :
    ClWorkloadFactory.CreateSubTensorHandleWith ctor (BuildConfig.mk true ndebug) parent
        subTensorShape subTensorOrigin
      = match fillCoords subTensorShape.GetNumDimensions subTensorOrigin
          subTensorShape.GetNumDimensions 0
          (Coordinates.set_num_dimensions subTensorShape.GetNumDimensions) with
        | Except.ok r => (ctor parent (BuildArmComputeTensorShape subTensorShape) r).map some
        | Except.error e => Except.error e := by
  have hassert : BOOST_ASSERT (BuildConfig.mk true ndebug) (parent.GetType == HandleType.CL)
      "parent.GetType() == ITensorHandle::CL" = Except.ok () := by
    rcases hp with h | h
    · simp [BOOST_ASSERT, h, pure, Except.pure]
    · simp [BOOST_ASSERT, h, pure, Except.pure]
  simp only [ClWorkloadFactory.CreateSubTensorHandleWith, if_true, hassert]
  cases fillCoords subTensorShape.GetNumDimensions subTensorOrigin
      subTensorShape.GetNumDimensions 0
      (Coordinates.set_num_dimensions subTensorShape.GetNumDimensions) with
  | error e => rfl
  | ok r =>
    simp only [bind, Except.bind]
    cases ctor parent (BuildArmComputeTensorShape subTensorShape) r <;> rfl

/-- `CreateSubTensorHandle` is `CreateSubTensorHandleWith` for the constructor that
stores its arguments. -/
theorem CreateSubTensorHandle_eq_store (cfg : BuildConfig) (parent : ITensorHandle)
    (subTensorShape : TensorShape) (subTensorOrigin : Nat → Nat) :
    ClWorkloadFactory.CreateSubTensorHandle cfg parent subTensorShape subTensorOrigin
      = ClWorkloadFactory.CreateSubTensorHandleWith ClSubTensorHandle.store cfg parent
          subTensorShape subTensorOrigin := rfl

/-- With the assertion passed or compiled out and every coordinate in range, the
call is the constructor applied to the parent, the reversed shape and the reversed
coordinates. -/
theorem CreateSubTensorHandleWith_in_range (ndebug : Bool)
    (parent : ITensorHandle) (subTensorShape : TensorShape) (subTensorOrigin : Nat → Nat)
    (hp : ndebug = true ∨ parent.GetType = HandleType.CL)
    (hv : ∀ k, k < subTensorShape.GetNumDimensions → subTensorOrigin k ≤ INT_MAX) :
    ∃ r : Coordinates, r.length = subTensorShape.GetNumDimensions ∧
      (∀ i, i < subTensorShape.GetNumDimensions →
        r[i]? = some (Int.ofNat (subTensorOrigin (subTensorShape.GetNumDimensions - 1 - i)))) ∧
      ∀ ctor : SubTensorConstructor,
        ClWorkloadFactory.CreateSubTensorHandleWith ctor (BuildConfig.mk true ndebug) parent
            subTensorShape subTensorOrigin
          = (ctor parent (BuildArmComputeTensorShape subTensorShape) r).map some := by
  obtain ⟨r, hr, hlen, _, hhigh⟩ :=
    fillCoords_ok subTensorShape.GetNumDimensions subTensorOrigin hv
      subTensorShape.GetNumDimensions 0
      (Coordinates.set_num_dimensions subTensorShape.GetNumDimensions)
      (by simp [Coordinates.set_num_dimensions]) (by omega)
  refine ⟨r, hlen, fun i hi => hhigh i (Nat.zero_le i) hi, ?_⟩
  intro ctor
  rw [CreateSubTensorHandleWith_enabled ctor ndebug parent subTensorShape subTensorOrigin hp, hr]

/-- With the assertion passed or compiled out, a coordinate above `INT_MAX` ends the
call with the fault of the checked cast before the constructor is reached. -/
theorem CreateSubTensorHandleWith_overflow (ctor : SubTensorConstructor) (ndebug : Bool)
    (parent : ITensorHandle) (subTensorShape : TensorShape) (subTensorOrigin : Nat → Nat)
    (hp : ndebug = true ∨ parent.GetType = HandleType.CL)
    (hex : ∃ k, k < subTensorShape.GetNumDimensions ∧ INT_MAX < subTensorOrigin k) :
    ClWorkloadFactory.CreateSubTensorHandleWith ctor (BuildConfig.mk true ndebug) parent
        subTensorShape subTensorOrigin = Except.error Exception.bad_numeric_cast := by
  rw [CreateSubTensorHandleWith_enabled ctor ndebug parent subTensorShape subTensorOrigin hp,
    fillCoords_overflow subTensorShape.GetNumDimensions subTensorOrigin
      subTensorShape.GetNumDimensions 0 _ (by omega) (by simpa using hex)]

/-- The bounds test of the modelled constructor fails on the reversed shape and the
reversed coordinates of a sub-region that leaves the parent. -/
theorem withinParent_of_exceeds (parent : ITensorHandle) (subTensorShape : TensorShape)
    (subTensorOrigin : Nat → Nat) (r : Coordinates)
    (hslots : ∀ i, i < subTensorShape.GetNumDimensions →
      r[i]? = some (Int.ofNat (subTensorOrigin (subTensorShape.GetNumDimensions - 1 - i))))
    (hex : exceedsParent parent subTensorShape subTensorOrigin) :
    withinParent parent (BuildArmComputeTensorShape subTensorShape) r = false := by
  obtain ⟨a, ha, hlt⟩ := hex
  have hn : subTensorShape.GetNumDimensions = subTensorShape.length := rfl
  rw [hn] at ha hslots
  unfold withinParent BuildArmComputeTensorShape
  rw [List.all_eq_false]
  refine ⟨a, List.mem_range.mpr (by simpa using ha), ?_⟩
  have hidx : subTensorShape.length - 1 - (subTensorShape.length - 1 - a) = a := by omega
  have hr := hslots (subTensorShape.length - 1 - a) (by omega)
  rw [hidx] at hr
  have hs : subTensorShape.reverse[subTensorShape.length - 1 - a]? = subTensorShape[a]? := by
    rw [List.getElem?_reverse (by omega), hidx]
  have hat : subTensorShape.at a = subTensorShape[a]?.getD 0 := by
    simp [TensorShape.at]
  simp only [List.length_reverse, List.getD_eq_getElem?_getD, hr, hs, Option.getD_some,
    decide_eq_true_eq, ← hat, Int.ofNat_eq_coe]
  omega

/-! ## C2: a sub-region that leaves the parent -/

/-- C2, amended: with the backend enabled and a CL parent, for every shape and origin
with `origin[a] + subShape[a]` beyond the parent's extent on some axis the call
returns no sub-tensor handle.  When every origin coordinate is at most `2^31-1`
the call is the constructor of `ClSubTensorHandle` on the parent, the reversed
shape and the reversed coordinates (the function itself tests no bound), and the
constructor fails with `InvalidArgument`; when some origin coordinate is greater
than `2^31-1` the call fails with `bad_numeric_cast` before any constructor is
reached. -/
theorem CreateSubTensorHandle_exceeding_parent (ndebug : Bool) (parent : ITensorHandle)
    (subTensorShape : TensorShape) (subTensorOrigin : Nat → Nat)
    (hp : parent.GetType = HandleType.CL)
    (hex : exceedsParent parent subTensorShape subTensorOrigin) :
    ((∀ k, k < subTensorShape.GetNumDimensions → subTensorOrigin k ≤ INT_MAX) →
      ClWorkloadFactory.CreateSubTensorHandleWith ClSubTensorHandle.new
          (BuildConfig.mk true ndebug) parent subTensorShape subTensorOrigin
        = Except.error (Exception.InvalidArgumentException
            "sub-tensor exceeds the bounds of its parent")) ∧
    ((∀ k, k < subTensorShape.GetNumDimensions → subTensorOrigin k ≤ INT_MAX) →
      ∃ r : Coordinates, r.length = subTensorShape.GetNumDimensions ∧
        (∀ i, i < subTensorShape.GetNumDimensions →
          r[i]? = some (Int.ofNat
            (subTensorOrigin (subTensorShape.GetNumDimensions - 1 - i)))) ∧
        ∀ ctor : SubTensorConstructor,
          ClWorkloadFactory.CreateSubTensorHandleWith ctor (BuildConfig.mk true ndebug) parent
              subTensorShape subTensorOrigin
            = (ctor parent (BuildArmComputeTensorShape subTensorShape) r).map some) ∧
    ((∃ k, k < subTensorShape.GetNumDimensions ∧ INT_MAX < subTensorOrigin k) →
      ∀ ctor : SubTensorConstructor,
        ClWorkloadFactory.CreateSubTensorHandleWith ctor (BuildConfig.mk true ndebug) parent
            subTensorShape subTensorOrigin = Except.error Exception.bad_numeric_cast) ∧
    (∀ h, ClWorkloadFactory.CreateSubTensorHandleWith ClSubTensorHandle.new
          (BuildConfig.mk true ndebug) parent subTensorShape subTensorOrigin
        ≠ Except.ok (some h)) := by
  have hin : (∀ k, k < subTensorShape.GetNumDimensions → subTensorOrigin k ≤ INT_MAX) →
      ClWorkloadFactory.CreateSubTensorHandleWith ClSubTensorHandle.new
          (BuildConfig.mk true ndebug) parent subTensorShape subTensorOrigin
        = Except.error (Exception.InvalidArgumentException
            "sub-tensor exceeds the bounds of its parent") := by
    intro hv
    obtain ⟨r, _, hslots, hcall⟩ :=
      CreateSubTensorHandleWith_in_range ndebug parent subTensorShape subTensorOrigin
        (Or.inr hp) hv
    have hw := withinParent_of_exceeds parent subTensorShape subTensorOrigin r hslots hex
    rw [hcall ClSubTensorHandle.new]
    simp [ClSubTensorHandle.new, hp, hw, Except.map, throw, throwThe, MonadExceptOf.throw]
  have hover : (∃ k, k < subTensorShape.GetNumDimensions ∧ INT_MAX < subTensorOrigin k) →
      ∀ ctor : SubTensorConstructor,
        ClWorkloadFactory.CreateSubTensorHandleWith ctor (BuildConfig.mk true ndebug) parent
            subTensorShape subTensorOrigin = Except.error Exception.bad_numeric_cast :=
    fun hbig ctor =>
      CreateSubTensorHandleWith_overflow ctor ndebug parent subTensorShape subTensorOrigin
        (Or.inr hp) hbig
  refine ⟨hin, fun hv =>
    CreateSubTensorHandleWith_in_range ndebug parent subTensorShape subTensorOrigin
      (Or.inr hp) hv, hover, ?_⟩
  intro h hok
  by_cases hv : ∀ k, k < subTensorShape.GetNumDimensions → subTensorOrigin k ≤ INT_MAX
  · rw [hin hv] at hok
    cases hok
  · have hbig : ∃ k, k < subTensorShape.GetNumDimensions ∧ INT_MAX < subTensorOrigin k := by
      by_contra hne
      apply hv
      intro k hk
      by_contra hgt
      exact hne ⟨k, hk, Nat.lt_of_not_le hgt⟩
    rw [hover hbig ClSubTensorHandle.new] at hok
    cases hok

/-- C2, witness: a (2,2) view at origin (1,1) of a (2,2) CL parent leaves the parent
(1 + 2 > 2) and is rejected with `InvalidArgument`. -/
theorem CreateSubTensorHandle_exceeding_parent_witness :
    ClWorkloadFactory.CreateSubTensorHandleWith ClSubTensorHandle.new
        (BuildConfig.mk true false) (ITensorHandle.mk HandleType.CL [2, 2]) [2, 2] (fun _ => 1)
      = Except.error (Exception.InvalidArgumentException
          "sub-tensor exceeds the bounds of its parent") :=
  (CreateSubTensorHandle_exceeding_parent false (ITensorHandle.mk HandleType.CL [2, 2]) [2, 2]
    (fun _ => 1) rfl ⟨0, by decide, by decide⟩).1 (by
      intro k _
      decide)

/-- C2, counterexample: a view of extent (2) at origin (3000000000) of a CL
parent of extent (4) leaves the parent, and the call fails with
`bad_numeric_cast`, not with `InvalidArgument`, whatever the constructor of
`ClSubTensorHandle` does: the checked cast of line 72 throws before line 75. -/
theorem CreateSubTensorHandle_exceeding_parent_bad_cast :
    exceedsParent (ITensorHandle.mk HandleType.CL [4]) [2] (fun _ => 3000000000) ∧
    ∀ ctor : SubTensorConstructor,
      ClWorkloadFactory.CreateSubTensorHandleWith ctor (BuildConfig.mk true false)
          (ITensorHandle.mk HandleType.CL [4]) [2] (fun _ => 3000000000)
        = Except.error Exception.bad_numeric_cast ∧
      ∀ what, ClWorkloadFactory.CreateSubTensorHandleWith ctor (BuildConfig.mk true false)
          (ITensorHandle.mk HandleType.CL [4]) [2] (fun _ => 3000000000)
        ≠ Except.error (Exception.InvalidArgumentException what) := by
  refine ⟨⟨0, by decide, by decide⟩, fun ctor => ?_⟩
  have hres : ClWorkloadFactory.CreateSubTensorHandleWith ctor (BuildConfig.mk true false)
        (ITensorHandle.mk HandleType.CL [4]) [2] (fun _ => 3000000000)
      = Except.error Exception.bad_numeric_cast := rfl
  refine ⟨hres, fun what h => ?_⟩
  rw [hres] at h
  cases h

/-! ## C3: a parent of another backend -/

end armnn
